import Mathlib

/-!
Verification development for the LeechWork repository: a resumable chunked
relay-transfer engine running as an HTTP worker.  The repository contains
several near-duplicate variants of one design; the embeddings below follow
the individual source files:

* namespace `Turbo`  — `src/worker.js` (parallel "turbo" edition: batched
  uploads of up to 4 chunks, one immediate retry per part, wall-clock budget
  with continuation dispatch, compose/finalize and checkpoint deletion);
* namespace `Relay1` — `src/unnamed/part_001` (sequential relay with the
  range-support fast-fail check);
* namespace `Simple` — `src/Worker.js` (single-shot stream splicer);
* namespace `Cobalt` — `src/unnamed/part_003` (single-shot variant with the
  in-memory buffering fallback for sources that report no Content-Length).

Byte streams are modelled as lists of natural numbers (byte values); network
reads as the list of byte blocks delivered by the reader; the wall-clock
budget check, upload failures, compose failures and dispatch failures as
Boolean oracles consulted exactly where the source consults the environment.
Every externally visible action of the engine is recorded as an event, so
theorems can speak about which uploads, dispatches, compose calls, checkpoint
deletions and notifications a run performs.
-/

namespace LeechWork

namespace Turbo

/-- `const CHUNK_SIZE = 512 * 1024` (src/worker.js line 91/98). -/
def CHUNK_SIZE : Nat := 512 * 1024

/-- `const PARALLEL_CHUNKS = 4` (src/worker.js line 13). -/
def PARALLEL_CHUNKS : Nat := 4

/-- `const MAX_RUNTIME = 45 * 1000` (src/worker.js line 66), in milliseconds. -/
def MAX_RUNTIME : Nat := 45 * 1000

/-- `const totalParts = Math.ceil(totalSize / CHUNK_SIZE)` (src/worker.js
line 92): ceiling division of the object size by the fixed part size. -/
def totalPartsOf (totalSize : Nat) : Nat := (totalSize + CHUNK_SIZE - 1) / CHUNK_SIZE

/-- Externally visible actions of one `runRelay` invocation.
`save` is one `upload.SaveBigFilePart` request (`attempt` is 0 for the first
try and 1 for the immediate retry); `dispatch` is the continuation call made
by `triggerNextWorker`; `compose` is the finalizing `messages.SendMedia`;
`deleteCp` is `env.LEECH_DB.delete(link)`; `notify` is an error `sendMessage`
to the chat; `edit` is an `editMessage` status update. -/
inductive Ev where
  | save (fileId partIdx totalParts : Nat) (bytes : List Nat) (attempt : Nat)
  | dispatch (nextPart : Nat)
  | compose (fileId parts : Nat) (filename : String)
  | deleteCp
  | notify (msg : String)
  | edit (msg : String)
deriving DecidableEq, Repr

/-- The `❌ **Error:** ` message head used by the catch-all handler
(src/worker.js line 222). -/
def errTag : String := "❌ **Error:** "

/-- The inner batch-collection loop of src/worker.js lines 140-169: take up
to `k` chunks off the front of the buffer, each of
`Math.min(CHUNK_SIZE, buffer.length)` bytes, stopping early when the buffer
empties or a chunk comes out shorter than `partSize`
(`if (currentChunkSize < CHUNK_SIZE) break`).  Returns the collected chunks
in order together with the remaining buffer. -/
def batchTake (p : Nat) : Nat → List Nat → List (List Nat) × List Nat
  | 0, buf => ([], buf)
  | k + 1, buf =>
    if 0 < buf.length then
      let c := min p buf.length
      let chunk := buf.take c
      let rest := buf.drop c
      if c < p then ([chunk], rest)
      else
        let r := batchTake p k rest
        (chunk :: r.1, r.2)
    else ([], buf)

/-- One part upload with the single immediate retry of src/worker.js lines
147-161: the first `SaveBigFilePart` invocation, and on failure a second
invocation with the same `fileId`, `filePart`, `fileTotalParts` and `bytes`.
`fails i a` tells whether attempt `a` for part `i` fails.  Returns the
attempt events and whether the part finally succeeded. -/
def uploadChunk (fails : Nat → Nat → Bool) (fid tp i : Nat) (c : List Nat) :
    List Ev × Bool :=
  if fails i 0 then
    ([Ev.save fid i tp c 0, Ev.save fid i tp c 1], !fails i 1)
  else ([Ev.save fid i tp c 0], true)

/-- Uploading one collected batch (src/worker.js lines 137-174): a promise is
created for every chunk (so every chunk of the batch is attempted), indices
are assigned consecutively from `i`, and `Promise.all` succeeds only when all
of them do. -/
def uploadBatch (fails : Nat → Nat → Bool) (fid tp : Nat) :
    Nat → List (List Nat) → List Ev × Bool
  | _, [] => ([], true)
  | i, c :: cs =>
    let u := uploadChunk fails fid tp i c
    let r := uploadBatch fails fid tp (i + 1) cs
    (u.1 ++ r.1, u.2 && r.2)

/-- Result of draining the accumulator: events, remaining buffer, next part
index, and whether all uploads succeeded. -/
structure DrainRes where
  evs : List Ev
  buf : List Nat
  idx : Nat
  ok : Bool
deriving Repr

/-- The middle `while (buffer.length >= CHUNK_SIZE || (done && buffer.length > 0))`
loop of src/worker.js lines 134-183: repeatedly collect a batch, upload it,
and continue while the guard holds.  A failed batch aborts the loop (the
rejected `Promise.all` throws past it).  `fuel` bounds the number of
iterations; every caller passes the buffer length, which suffices because
each guarded iteration consumes at least one byte (the best-effort progress
edits of lines 177-180 are rate-limited UI and are elided). -/
def drainUpload (fails : Nat → Nat → Bool) (fid tp p k : Nat) :
    Nat → Bool → List Nat → Nat → DrainRes
  | 0, _, buf, i => ⟨[], buf, i, true⟩
  | fuel + 1, done, buf, i =>
    if p ≤ buf.length ∨ (done ∧ buf ≠ []) then
      let bt := batchTake p k buf
      let ub := uploadBatch fails fid tp i bt.1
      if ub.2 then
        let r := drainUpload fails fid tp p k fuel done bt.2 (i + bt.1.length)
        ⟨ub.1 ++ r.evs, r.buf, r.idx, r.ok⟩
      else ⟨ub.1, bt.2, i + bt.1.length, false⟩
    else ⟨[], buf, i, true⟩

/-- How the main read loop of src/worker.js lines 114-186 ends: continuation
handed off on budget exhaustion, stream finished, or an upload failed twice. -/
inductive LoopExit where
  | handedOff (n : Nat)
  | finished
  | failed
deriving DecidableEq, Repr

/-- The main read loop of src/worker.js lines 114-186.  At the top of every
iteration the elapsed-time check `Date.now() - START_TIME > MAX_RUNTIME` is
consulted (modelled by `budget iter`); when it fires, `triggerNextWorker` is
called with the current `partIdx` and the invocation returns.  Otherwise one
reader read is consumed: end of stream with an empty accumulator breaks out;
otherwise the value is appended and the accumulator drained. -/
def runLoop (budget : Nat → Bool) (fails : Nat → Nat → Bool) (fid tp p k : Nat) :
    List (List Nat) → List Nat → Nat → Nat → List Ev × LoopExit
  | rs, buf, i, iter =>
    if budget iter then ([Ev.dispatch i], .handedOff i)
    else
      match rs with
      | [] =>
        if buf = [] then ([], .finished)
        else
          let d := drainUpload fails fid tp p k buf.length true buf i
          if d.ok then (d.evs, .finished) else (d.evs, .failed)
      | r :: rest =>
        let buf1 := buf ++ r
        let d := drainUpload fails fid tp p k buf1.length false buf1 i
        if d.ok then
          let t := runLoop budget fails fid tp p k rest d.buf d.idx (iter + 1)
          (d.evs ++ t.1, t.2)
        else (d.evs, .failed)

/-- Overall outcome of one `runRelay` invocation. -/
inductive Outcome where
  | done
  | handedOff (n : Nat)
  | failed
deriving DecidableEq, Repr

/-- One `runRelay` invocation from the start of the upload loop
(src/worker.js lines 114-225): run the read loop; on budget handoff return
after the dispatch; on a fatal upload failure the thrown error reaches the
catch-all which sends `❌ **Error:** ...` (line 222); on stream completion
edit the status, issue the compose call `messages.SendMedia` (lines 208-217)
and on its success delete the checkpoint (line 219) — if the compose call
throws (`composeErr = some m`) the catch-all reports it and the checkpoint is
left in place. -/
def runRelay (budget : Nat → Bool) (fails : Nat → Nat → Bool)
    (composeErr : Option String) (uploadErrMsg : String)
    (fid tp p k : Nat) (filename : String)
    (reads : List (List Nat)) (startPart : Nat) : List Ev × Outcome :=
  let l := runLoop budget fails fid tp p k reads [] startPart 0
  match l.2 with
  | .handedOff n => (l.1, .handedOff n)
  | .failed => (l.1 ++ [Ev.notify (errTag ++ uploadErrMsg)], .failed)
  | .finished =>
    match composeErr with
    | some m =>
      (l.1 ++ [Ev.edit "✅ **Upload 100%!** Processing...",
               Ev.compose fid tp filename,
               Ev.notify (errTag ++ m)], .failed)
    | none =>
      (l.1 ++ [Ev.edit "✅ **Upload 100%!** Processing...",
               Ev.compose fid tp filename, Ev.deleteCp], .done)

/-- A budget oracle that never fires (an invocation that never exceeds its
execution window). -/
def noBudget : Nat → Bool := fun _ => false

/-- An upload oracle under which every attempt succeeds. -/
def noFail : Nat → Nat → Bool := fun _ _ => false

/-! Trace observations. -/

/-- The bytes of the first attempt of every uploaded part, in emission
order. -/
def firstAttempts (evs : List Ev) : List (List Nat) :=
  evs.filterMap fun e =>
    match e with
    | .save _ _ _ b 0 => some b
    | _ => none

/-- The lengths of the emitted parts (first attempts), in order. -/
def saveLens (evs : List Ev) : List Nat := (firstAttempts evs).map List.length

/-- Number of parts emitted in a trace. -/
def count0 (evs : List Ev) : Nat := (firstAttempts evs).length

/-- Whether an event is a part-upload attempt. -/
def isSave : Ev → Bool
  | .save _ _ _ _ _ => true
  | _ => false

/-- Number of continuation dispatches in a trace. -/
def countDispatch (evs : List Ev) : Nat :=
  (evs.filter fun e => match e with | .dispatch _ => true | _ => false).length

/-- Whether a trace contains a compose (finalize) call. -/
def hasCompose (evs : List Ev) : Bool :=
  evs.any fun e => match e with | .compose _ _ _ => true | _ => false

/-- Whether a trace contains a checkpoint deletion. -/
def hasDelete (evs : List Ev) : Bool :=
  evs.any fun e => match e with | .deleteCp => true | _ => false

/-- Whether a trace contains an error notification. -/
def hasNotify (evs : List Ev) : Bool :=
  evs.any fun e => match e with | .notify _ => true | _ => false

/-! Stepping lemmas: controlled unfoldings of the loop functions, used both
for the structural induction proofs and for evaluating runs on concrete
inputs without unbounded unfolding. -/

theorem batchTake_nil (p k : Nat) : batchTake p k [] = ([], []) := by
  cases k <;> simp [batchTake]

theorem batchTake_full (p k : Nat) (buf : List Nat) (hp : 0 < p)
    (h : p ≤ buf.length) :
    batchTake p (k + 1) buf =
      ((buf.take p) :: (batchTake p k (buf.drop p)).1, (batchTake p k (buf.drop p)).2) := by
  have h0 : 0 < buf.length := lt_of_lt_of_le hp h
  have hmin : min p buf.length = p := min_eq_left h
  simp only [batchTake, if_pos h0, hmin]
  rw [if_neg (lt_irrefl p)]

theorem batchTake_short (p k : Nat) (buf : List Nat)
    (h1 : 0 < buf.length) (h2 : buf.length < p) :
    batchTake p (k + 1) buf = ([buf], []) := by
  have hmin : min p buf.length = buf.length := min_eq_right (le_of_lt h2)
  simp only [batchTake, if_pos h1, hmin]
  rw [if_pos h2, List.take_length, List.drop_length]

theorem batchTake_flatten (p k : Nat) (buf : List Nat) :
    (batchTake p k buf).1.flatten ++ (batchTake p k buf).2 = buf := by
  induction k generalizing buf with
  | zero => simp [batchTake]
  | succ k ih =>
    by_cases h0 : 0 < buf.length
    · simp only [batchTake, if_pos h0]
      split
      · simp [List.take_append_drop]
      · simp only [List.flatten_cons, List.append_assoc, ih]
        exact List.take_append_drop ..
    · simp [batchTake, if_neg h0]

theorem batchTake_rest_length (p k : Nat) (buf : List Nat) :
    (batchTake p k buf).2.length ≤ buf.length := by
  conv_rhs => rw [← batchTake_flatten p k buf]
  simp

theorem batchTake_progress (p k : Nat) (buf : List Nat)
    (hp : 0 < p) (hk : 0 < k) (hb : buf ≠ []) :
    (batchTake p k buf).2.length < buf.length := by
  obtain ⟨k, rfl⟩ : ∃ k2, k = k2 + 1 :=
    ⟨k - 1, (Nat.succ_pred_eq_of_pos hk).symm⟩
  have h0 : 0 < buf.length := List.length_pos.mpr hb
  have hmin : 0 < min p buf.length := lt_min hp h0
  simp only [batchTake, if_pos h0]
  by_cases hc : min p buf.length < p
  · rw [if_pos hc]
    simpa using Nat.sub_lt h0 hmin
  · rw [if_neg hc]
    calc (batchTake p k (buf.drop (min p buf.length))).2.length
        ≤ (buf.drop (min p buf.length)).length := batchTake_rest_length ..
      _ < buf.length := by simpa using Nat.sub_lt h0 hmin

/-! Upload lemmas. -/

theorem firstAttempts_append (l1 l2 : List Ev) :
    firstAttempts (l1 ++ l2) = firstAttempts l1 ++ firstAttempts l2 := by
  simp [firstAttempts]

theorem count0_append (l1 l2 : List Ev) :
    count0 (l1 ++ l2) = count0 l1 + count0 l2 := by
  simp [count0, firstAttempts_append]

theorem uploadChunk_firstAttempts (fails : Nat → Nat → Bool) (fid tp i : Nat)
    (c : List Nat) : firstAttempts (uploadChunk fails fid tp i c).1 = [c] := by
  by_cases h : fails i 0 <;> simp [uploadChunk, h, firstAttempts]

theorem uploadBatch_firstAttempts (fails : Nat → Nat → Bool) (fid tp : Nat)
    (i : Nat) (cs : List (List Nat)) :
    firstAttempts (uploadBatch fails fid tp i cs).1 = cs := by
  induction cs generalizing i with
  | nil => simp [uploadBatch, firstAttempts]
  | cons c cs ih =>
    simp [uploadBatch, firstAttempts_append, uploadChunk_firstAttempts, ih]

theorem uploadChunk_saves (fails : Nat → Nat → Bool) (fid tp i : Nat)
    (c : List Nat) : ∀ e ∈ (uploadChunk fails fid tp i c).1, isSave e = true := by
  by_cases h : fails i 0 <;> simp [uploadChunk, h, isSave]

theorem uploadBatch_saves (fails : Nat → Nat → Bool) (fid tp : Nat)
    (i : Nat) (cs : List (List Nat)) :
    ∀ e ∈ (uploadBatch fails fid tp i cs).1, isSave e = true := by
  induction cs generalizing i with
  | nil => simp [uploadBatch]
  | cons c cs ih =>
    intro e he
    rcases List.mem_append.mp he with h | h
    · exact uploadChunk_saves fails fid tp i c e h
    · exact ih (i + 1) e h

theorem uploadChunk_ok_noFail (fid tp i : Nat) (c : List Nat) :
    (uploadChunk noFail fid tp i c).2 = true := by
  simp [uploadChunk, noFail]

theorem uploadBatch_ok_noFail (fid tp i : Nat) (cs : List (List Nat)) :
    (uploadBatch noFail fid tp i cs).2 = true := by
  induction cs generalizing i with
  | nil => simp [uploadBatch]
  | cons c cs ih => simp [uploadBatch, uploadChunk_ok_noFail, ih]

/-! Drain lemmas. -/

theorem drainUpload_flatten (fails : Nat → Nat → Bool) (fid tp p k : Nat)
    (fuel : Nat) (done : Bool) (buf : List Nat) (i : Nat) :
    (firstAttempts (drainUpload fails fid tp p k fuel done buf i).evs).flatten ++
      (drainUpload fails fid tp p k fuel done buf i).buf = buf := by
  induction fuel generalizing buf i with
  | zero => simp [drainUpload, firstAttempts]
  | succ fuel ih =>
    by_cases hg : p ≤ buf.length ∨ (done ∧ buf ≠ [])
    · cases hok : (uploadBatch fails fid tp i (batchTake p k buf).1).2 with
      | true =>
        simp only [drainUpload, if_pos hg, hok, if_true, firstAttempts_append,
          List.flatten_append, uploadBatch_firstAttempts, List.append_assoc, ih]
        exact batchTake_flatten p k buf
      | false =>
        simp only [drainUpload, if_pos hg, hok, Bool.false_eq_true, if_false]
        simpa [uploadBatch_firstAttempts] using batchTake_flatten p k buf
    · simp [drainUpload, if_neg hg, firstAttempts]

theorem drainUpload_idx (fails : Nat → Nat → Bool) (fid tp p k : Nat)
    (fuel : Nat) (done : Bool) (buf : List Nat) (i : Nat) :
    (drainUpload fails fid tp p k fuel done buf i).idx =
      i + count0 (drainUpload fails fid tp p k fuel done buf i).evs := by
  induction fuel generalizing buf i with
  | zero => simp [drainUpload, count0, firstAttempts]
  | succ fuel ih =>
    by_cases hg : p ≤ buf.length ∨ (done ∧ buf ≠ [])
    · cases hok : (uploadBatch fails fid tp i (batchTake p k buf).1).2 with
      | true =>
        simp only [drainUpload, if_pos hg, hok, if_true, count0_append, ih]
        simp [count0, uploadBatch_firstAttempts, Nat.add_assoc]
      | false =>
        simp only [drainUpload, if_pos hg, hok, Bool.false_eq_true, if_false]
        simp [count0, uploadBatch_firstAttempts]
    · simp [drainUpload, if_neg hg, count0, firstAttempts]

theorem drainUpload_saves (fails : Nat → Nat → Bool) (fid tp p k : Nat)
    (fuel : Nat) (done : Bool) (buf : List Nat) (i : Nat) :
    ∀ e ∈ (drainUpload fails fid tp p k fuel done buf i).evs, isSave e = true := by
  induction fuel generalizing buf i with
  | zero => simp [drainUpload]
  | succ fuel ih =>
    by_cases hg : p ≤ buf.length ∨ (done ∧ buf ≠ [])
    · cases hok : (uploadBatch fails fid tp i (batchTake p k buf).1).2 with
      | true =>
        simp only [drainUpload, if_pos hg, hok, if_true]
        intro e he
        rcases List.mem_append.mp he with h | h
        · exact uploadBatch_saves fails fid tp i _ e h
        · exact ih _ _ e h
      | false =>
        simp only [drainUpload, if_pos hg, hok, Bool.false_eq_true, if_false]
        exact uploadBatch_saves fails fid tp i _
    · simp [drainUpload, if_neg hg]

theorem drainUpload_ok_noFail (fid tp p k : Nat)
    (fuel : Nat) (done : Bool) (buf : List Nat) (i : Nat) :
    (drainUpload noFail fid tp p k fuel done buf i).ok = true := by
  induction fuel generalizing buf i with
  | zero => simp [drainUpload]
  | succ fuel ih =>
    by_cases hg : p ≤ buf.length ∨ (done ∧ buf ≠ [])
    · simp only [drainUpload, if_pos hg, uploadBatch_ok_noFail, if_true]
      exact ih _ _
    · simp [drainUpload, if_neg hg]

theorem drainUpload_done_empty (fid tp p k : Nat) (hp : 0 < p) (hk : 0 < k) :
    ∀ (fuel : Nat) (buf : List Nat) (i : Nat), buf.length ≤ fuel →
    (drainUpload noFail fid tp p k fuel true buf i).buf = [] := by
  intro fuel
  induction fuel with
  | zero =>
    intro buf i hle
    have hb : buf = [] := List.length_eq_zero.mp (Nat.le_zero.mp hle)
    simp [hb, drainUpload]
  | succ fuel ih =>
    intro buf i hle
    by_cases hb : buf = []
    · subst hb
      have hg : ¬ (p ≤ ([] : List Nat).length ∨ (True ∧ ([] : List Nat) ≠ [])) := by
        simp
        omega
      simp only [drainUpload]
      rw [if_neg hg]
    · have hg : p ≤ buf.length ∨ (True ∧ buf ≠ []) := Or.inr ⟨trivial, hb⟩
      have hprog : (batchTake p k buf).2.length < buf.length :=
        batchTake_progress p k buf hp hk hb
      simp only [drainUpload, if_pos hg, uploadBatch_ok_noFail, if_true]
      refine ih _ _ ?_
      omega


/-! Read-loop lemmas. -/

theorem runLoop_noFail_spec (fid tp p k : Nat) (hp : 0 < p) (hk : 0 < k) :
    ∀ (rs : List (List Nat)) (buf : List Nat) (i iter : Nat),
    (runLoop noBudget noFail fid tp p k rs buf i iter).2 = .finished ∧
    (firstAttempts (runLoop noBudget noFail fid tp p k rs buf i iter).1).flatten
      = buf ++ rs.flatten := by
  intro rs
  induction rs with
  | nil =>
    intro buf i iter
    by_cases hb : buf = []
    · simp [runLoop, noBudget, hb, firstAttempts]
    · have hok : (drainUpload noFail fid tp p k buf.length true buf i).ok = true :=
        drainUpload_ok_noFail ..
      have hempty : (drainUpload noFail fid tp p k buf.length true buf i).buf = [] :=
        drainUpload_done_empty fid tp p k hp hk buf.length buf i le_rfl
      have hfl := drainUpload_flatten noFail fid tp p k buf.length true buf i
      rw [hempty, List.append_nil] at hfl
      simp [runLoop, noBudget, hb, hok, hfl]
  | cons r rest ih =>
    intro buf i iter
    have hok : (drainUpload noFail fid tp p k (buf ++ r).length false (buf ++ r) i).ok
        = true := drainUpload_ok_noFail ..
    have hfl := drainUpload_flatten noFail fid tp p k (buf ++ r).length false (buf ++ r) i
    obtain ⟨hexit, hflat⟩ := ih (drainUpload noFail fid tp p k (buf ++ r).length
      false (buf ++ r) i).buf (drainUpload noFail fid tp p k (buf ++ r).length
      false (buf ++ r) i).idx (iter + 1)
    constructor
    · simp only [runLoop, noBudget, Bool.false_eq_true, if_false, hok, if_true, hexit]
    · simp only [runLoop, noBudget, Bool.false_eq_true, if_false, hok, if_true,
        firstAttempts_append, List.flatten_append, hflat]
      rw [← List.append_assoc, hfl]
      simp

theorem countDispatch_append (l1 l2 : List Ev) :
    countDispatch (l1 ++ l2) = countDispatch l1 + countDispatch l2 := by
  simp [countDispatch]

theorem countDispatch_of_saves (l : List Ev) (h : ∀ e ∈ l, isSave e = true) :
    countDispatch l = 0 := by
  simp only [countDispatch, List.length_eq_zero, List.filter_eq_nil_iff]
  intro e he
  have := h e he
  cases e <;> simp_all [isSave]

theorem runLoop_handedOff (budget : Nat → Bool) (fails : Nat → Nat → Bool)
    (fid tp p k : Nat) :
    ∀ (rs : List (List Nat)) (buf : List Nat) (i iter n : Nat),
    (runLoop budget fails fid tp p k rs buf i iter).2 = .handedOff n →
    ∃ pre, (runLoop budget fails fid tp p k rs buf i iter).1 = pre ++ [Ev.dispatch n] ∧
      (∀ e ∈ pre, isSave e = true) ∧ n = i + count0 pre := by
  intro rs
  induction rs with
  | nil =>
    intro buf i iter n h
    by_cases hbud : budget iter = true
    · refine ⟨[], ?_, by simp, ?_⟩
      · simp only [runLoop, hbud, if_true] at h ⊢
        cases h
        simp
      · simp only [runLoop, hbud, if_true] at h
        cases h
        simp [count0, firstAttempts]
    · exfalso
      by_cases hb : buf = []
      · simp [runLoop, hbud, hb] at h
      · rcases hok : (drainUpload fails fid tp p k buf.length true buf i).ok with _ | _ <;>
          simp [runLoop, hbud, hb, hok] at h
  | cons r rest ih =>
    intro buf i iter n h
    by_cases hbud : budget iter = true
    · refine ⟨[], ?_, by simp, ?_⟩
      · simp only [runLoop, hbud, if_true] at h ⊢
        cases h
        simp
      · simp only [runLoop, hbud, if_true] at h
        cases h
        simp [count0, firstAttempts]
    · rcases hok : (drainUpload fails fid tp p k (buf ++ r).length false (buf ++ r) i).ok
          with _ | _
      · exfalso
        simp only [runLoop, hbud, Bool.false_eq_true, if_false, hok] at h
        simp at h
      · have h2 : (runLoop budget fails fid tp p k rest
            (drainUpload fails fid tp p k (buf ++ r).length false (buf ++ r) i).buf
            (drainUpload fails fid tp p k (buf ++ r).length false (buf ++ r) i).idx
            (iter + 1)).2 = .handedOff n := by
          simp only [runLoop, hbud, Bool.false_eq_true, if_false, hok, if_true] at h
          exact h
        obtain ⟨pre, hpre, hsave, hn⟩ := ih _ _ _ n h2
        refine ⟨(drainUpload fails fid tp p k (buf ++ r).length false (buf ++ r) i).evs
          ++ pre, ?_, ?_, ?_⟩
        · simp only [runLoop, hbud, Bool.false_eq_true, if_false, hok, if_true,
            hpre, List.append_assoc]
        · intro e he
          rcases List.mem_append.mp he with hh | hh
          · exact drainUpload_saves fails fid tp p k _ false (buf ++ r) i e hh
          · exact hsave e hh
        · rw [count0_append, hn, drainUpload_idx]
          omega

theorem runLoop_failed_trace (budget : Nat → Bool) (fails : Nat → Nat → Bool)
    (fid tp p k : Nat) :
    ∀ (rs : List (List Nat)) (buf : List Nat) (i iter : Nat),
    (runLoop budget fails fid tp p k rs buf i iter).2 = .failed →
    ∀ e ∈ (runLoop budget fails fid tp p k rs buf i iter).1, isSave e = true := by
  intro rs
  induction rs with
  | nil =>
    intro buf i iter h
    by_cases hbud : budget iter = true
    · simp [runLoop, hbud] at h
    · by_cases hb : buf = []
      · simp [runLoop, hbud, hb] at h
      · rcases hok : (drainUpload fails fid tp p k buf.length true buf i).ok with _ | _
        · simp only [runLoop, hbud, Bool.false_eq_true, if_false, hb, hok]
          exact drainUpload_saves fails fid tp p k buf.length true buf i
        · simp [runLoop, hbud, hb, hok] at h
  | cons r rest ih =>
    intro buf i iter h
    by_cases hbud : budget iter = true
    · simp [runLoop, hbud] at h
    · rcases hok : (drainUpload fails fid tp p k (buf ++ r).length false (buf ++ r) i).ok
          with _ | _
      · simp only [runLoop, hbud, Bool.false_eq_true, if_false, hok]
        exact drainUpload_saves fails fid tp p k (buf ++ r).length false (buf ++ r) i
      · simp only [runLoop, hbud, Bool.false_eq_true, if_false, hok, if_true] at h ⊢
        intro e he
        rcases List.mem_append.mp he with hh | hh
        · exact drainUpload_saves fails fid tp p k _ false (buf ++ r) i e hh
        · exact ih _ _ _ h e hh

/-! Ceiling division. -/

theorem add_pred_div_eq_ceil (n c : Nat) (hc : 0 < c) :
    (n + c - 1) / c = ⌈(n : ℚ) / (c : ℚ)⌉₊ := by
  rcases Nat.eq_zero_or_pos n with hn | hn
  · subst hn
    simp [Nat.div_eq_of_lt (Nat.sub_lt hc Nat.one_pos)]
  · have hcq : (0 : ℚ) < (c : ℚ) := by exact_mod_cast hc
    have hdm := Nat.div_add_mod (n + c - 1) c
    have hmlt : (n + c - 1) % c < c := Nat.mod_lt _ hc
    set q := (n + c - 1) / c with hq
    have hq1 : 1 ≤ q := by
      rw [hq, Nat.one_le_div_iff hc]
      omega
    apply le_antisymm
    · have hlow : (q - 1) * c < n := by
        have h1 : c * q ≤ n + c - 1 := by omega
        have h2 : (q - 1) * c = q * c - c := by rw [Nat.sub_mul, one_mul]
        have h3 : q * c = c * q := Nat.mul_comm ..
        omega
      have : ((q - 1 : Nat) : ℚ) < (n : ℚ) / (c : ℚ) := by
        rw [lt_div_iff₀ hcq]
        exact_mod_cast hlow
      have := Nat.add_one_le_ceil_iff.mpr this
      omega
    · have hup : n ≤ q * c := by
        have h1 : c * q = n + c - 1 - (n + c - 1) % c := by omega
        have h3 : q * c = c * q := Nat.mul_comm ..
        omega
      rw [Nat.ceil_le, div_le_iff₀ hcq]
      exact_mod_cast hup

/-! Full successful run. -/

theorem runRelay_noFail_spec (fid tp p k : Nat) (hp : 0 < p) (hk : 0 < k)
    (fn u : String) (reads : List (List Nat)) :
    (runRelay noBudget noFail none u fid tp p k fn reads 0).2 = Outcome.done ∧
    (saveLens (runRelay noBudget noFail none u fid tp p k fn reads 0).1).sum
      = reads.flatten.length := by
  obtain ⟨hexit, hflat⟩ := runLoop_noFail_spec fid tp p k hp hk reads [] 0 0
  constructor
  · simp only [runRelay]
    rw [hexit]
  · simp only [runRelay]
    rw [hexit]
    simp only [saveLens, firstAttempts_append]
    have htail : firstAttempts [Ev.edit "✅ **Upload 100%!** Processing...",
        Ev.compose fid tp fn, Ev.deleteCp] = [] := by
      simp [firstAttempts]
    rw [htail, List.append_nil, ← List.length_flatten, hflat]
    simp

/-! Guarded stepping lemmas for concrete evaluation (the fuel argument is
kept abstract so rewriting cannot unfold the recursion unboundedly). -/

theorem drainUpload_zero (fails : Nat → Nat → Bool) (fid tp p k : Nat)
    (done : Bool) (buf : List Nat) (i : Nat) :
    drainUpload fails fid tp p k 0 done buf i = ⟨[], buf, i, true⟩ := rfl

theorem drainUpload_step (fails : Nat → Nat → Bool) (fid tp p k fuel : Nat)
    (done : Bool) (buf : List Nat) (i : Nat) (hf : fuel ≠ 0)
    (hg : p ≤ buf.length ∨ (done ∧ buf ≠ []))
    (hok : (uploadBatch fails fid tp i (batchTake p k buf).1).2 = true) :
    drainUpload fails fid tp p k fuel done buf i =
      ⟨(uploadBatch fails fid tp i (batchTake p k buf).1).1 ++
          (drainUpload fails fid tp p k (fuel - 1) done (batchTake p k buf).2
            (i + (batchTake p k buf).1.length)).evs,
        (drainUpload fails fid tp p k (fuel - 1) done (batchTake p k buf).2
          (i + (batchTake p k buf).1.length)).buf,
        (drainUpload fails fid tp p k (fuel - 1) done (batchTake p k buf).2
          (i + (batchTake p k buf).1.length)).idx,
        (drainUpload fails fid tp p k (fuel - 1) done (batchTake p k buf).2
          (i + (batchTake p k buf).1.length)).ok⟩ := by
  obtain ⟨f, rfl⟩ : ∃ f, fuel = f + 1 := ⟨fuel - 1, by omega⟩
  simp only [drainUpload, if_pos hg, hok, if_true, Nat.add_sub_cancel]

theorem drainUpload_stop (fails : Nat → Nat → Bool) (fid tp p k fuel : Nat)
    (done : Bool) (buf : List Nat) (i : Nat)
    (hg : ¬ (p ≤ buf.length ∨ (done ∧ buf ≠ []))) :
    drainUpload fails fid tp p k fuel done buf i = ⟨[], buf, i, true⟩ := by
  cases fuel with
  | zero => rfl
  | succ f =>
    simp only [drainUpload]
    rw [if_neg hg]

/-! Evaluation of the spec example: a 2,000,000-byte object delivered by the
reader in one block. -/

theorem batchTake_example :
    batchTake CHUNK_SIZE 4 (List.replicate 2000000 (0 : Nat)) =
      ([List.replicate 524288 (0 : Nat), List.replicate 524288 0,
        List.replicate 524288 0, List.replicate 427136 0], []) := by
  have hp : 0 < CHUNK_SIZE := by norm_num [CHUNK_SIZE]
  have hmin1 : min CHUNK_SIZE 2000000 = 524288 := by
    rw [Nat.min_def]
    norm_num [CHUNK_SIZE]
  have hmin2 : min CHUNK_SIZE 1475712 = 524288 := by
    rw [Nat.min_def]
    norm_num [CHUNK_SIZE]
  have hmin3 : min CHUNK_SIZE 951424 = 524288 := by
    rw [Nat.min_def]
    norm_num [CHUNK_SIZE]
  have h1 : batchTake CHUNK_SIZE 1 (List.replicate 427136 (0 : Nat)) =
      ([List.replicate 427136 (0 : Nat)], []) := by
    have h := batchTake_short CHUNK_SIZE 0 (List.replicate 427136 (0 : Nat))
      (by rw [List.length_replicate]; norm_num)
      (by rw [List.length_replicate]; norm_num [CHUNK_SIZE])
    rw [show (0 + 1 : Nat) = 1 from rfl] at h
    exact h
  have h2 : batchTake CHUNK_SIZE 2 (List.replicate 951424 (0 : Nat)) =
      ([List.replicate 524288 (0 : Nat), List.replicate 427136 0], []) := by
    rw [show (2 : Nat) = 1 + 1 from rfl]
    rw [batchTake_full CHUNK_SIZE 1 (List.replicate 951424 (0 : Nat)) hp
      (by rw [List.length_replicate]; norm_num [CHUNK_SIZE])]
    rw [List.take_replicate, List.drop_replicate, hmin3,
      show (951424 : Nat) - CHUNK_SIZE = 427136 from by norm_num [CHUNK_SIZE], h1]
  have h3 : batchTake CHUNK_SIZE 3 (List.replicate 1475712 (0 : Nat)) =
      ([List.replicate 524288 (0 : Nat), List.replicate 524288 0,
        List.replicate 427136 0], []) := by
    rw [show (3 : Nat) = 2 + 1 from rfl]
    rw [batchTake_full CHUNK_SIZE 2 (List.replicate 1475712 (0 : Nat)) hp
      (by rw [List.length_replicate]; norm_num [CHUNK_SIZE])]
    rw [List.take_replicate, List.drop_replicate, hmin2,
      show (1475712 : Nat) - CHUNK_SIZE = 951424 from by norm_num [CHUNK_SIZE], h2]
  rw [show (4 : Nat) = 3 + 1 from rfl]
  rw [batchTake_full CHUNK_SIZE 3 (List.replicate 2000000 (0 : Nat)) hp
    (by rw [List.length_replicate]; norm_num [CHUNK_SIZE])]
  rw [List.take_replicate, List.drop_replicate, hmin1,
    show (2000000 : Nat) - CHUNK_SIZE = 1475712 from by norm_num [CHUNK_SIZE], h3]

theorem runLoop_nil_empty (budget : Nat → Bool) (fails : Nat → Nat → Bool)
    (fid tp p k i iter : Nat) (hbud : budget iter = false) :
    runLoop budget fails fid tp p k [] [] i iter = ([], LoopExit.finished) := by
  simp [runLoop, hbud]

theorem runLoop_cons_ok (budget : Nat → Bool) (fails : Nat → Nat → Bool)
    (fid tp p k : Nat) (r : List Nat) (rest : List (List Nat))
    (buf : List Nat) (i iter : Nat) (hbud : budget iter = false)
    (hok : (drainUpload fails fid tp p k (buf ++ r).length false (buf ++ r) i).ok
      = true) :
    runLoop budget fails fid tp p k (r :: rest) buf i iter =
      ((drainUpload fails fid tp p k (buf ++ r).length false (buf ++ r) i).evs ++
        (runLoop budget fails fid tp p k rest
          (drainUpload fails fid tp p k (buf ++ r).length false (buf ++ r) i).buf
          (drainUpload fails fid tp p k (buf ++ r).length false (buf ++ r) i).idx
          (iter + 1)).1,
       (runLoop budget fails fid tp p k rest
          (drainUpload fails fid tp p k (buf ++ r).length false (buf ++ r) i).buf
          (drainUpload fails fid tp p k (buf ++ r).length false (buf ++ r) i).idx
          (iter + 1)).2) := by
  simp only [runLoop, hbud, Bool.false_eq_true, if_false, hok, if_true]

theorem runRelay_of_finished (budget : Nat → Bool) (fails : Nat → Nat → Bool)
    (u : String) (fid tp p k : Nat) (fn : String) (reads : List (List Nat))
    (startPart : Nat)
    (hfin : (runLoop budget fails fid tp p k reads [] startPart 0).2
      = LoopExit.finished) :
    runRelay budget fails none u fid tp p k fn reads startPart =
      ((runLoop budget fails fid tp p k reads [] startPart 0).1 ++
        [Ev.edit "✅ **Upload 100%!** Processing...", Ev.compose fid tp fn,
         Ev.deleteCp], Outcome.done) := by
  simp only [runRelay]
  rw [hfin]

theorem runRelay_example :
    saveLens (runRelay noBudget noFail none "" 1 4 CHUNK_SIZE PARALLEL_CHUNKS
      "video.mp4" [List.replicate 2000000 (0 : Nat)] 0).1 =
      [524288, 524288, 524288, 427136] := by
  have hbt : batchTake CHUNK_SIZE PARALLEL_CHUNKS (List.replicate 2000000 (0 : Nat)) =
      ([List.replicate 524288 (0 : Nat), List.replicate 524288 0,
        List.replicate 524288 0, List.replicate 427136 0], []) := by
    rw [show PARALLEL_CHUNKS = 4 from rfl]
    exact batchTake_example
  have hdrain : drainUpload noFail 1 4 CHUNK_SIZE PARALLEL_CHUNKS 2000000 false
      (List.replicate 2000000 (0 : Nat)) 0 =
      ⟨(uploadBatch noFail 1 4 0 [List.replicate 524288 (0 : Nat),
          List.replicate 524288 0, List.replicate 524288 0,
          List.replicate 427136 0]).1, [], 4, true⟩ := by
    rw [drainUpload_step noFail 1 4 CHUNK_SIZE PARALLEL_CHUNKS 2000000 false
      (List.replicate 2000000 (0 : Nat)) 0 (by norm_num)
      (Or.inl (by rw [List.length_replicate]; norm_num [CHUNK_SIZE]))
      (by rw [hbt]; exact uploadBatch_ok_noFail 1 4 0 _)]
    rw [hbt]
    rw [drainUpload_stop noFail 1 4 CHUNK_SIZE PARALLEL_CHUNKS (2000000 - 1) false
      [] (0 + ([List.replicate 524288 (0 : Nat), List.replicate 524288 0,
        List.replicate 524288 0, List.replicate 427136 0] : List (List Nat)).length)
      (by intro hcon
          rcases hcon with hcon | hcon
          · rw [List.length_nil] at hcon
            norm_num [CHUNK_SIZE] at hcon
          · exact hcon.2 rfl)]
    rw [show ((uploadBatch noFail 1 4 0 ([List.replicate 524288 (0 : Nat),
        List.replicate 524288 0, List.replicate 524288 0,
        List.replicate 427136 0], ([] : List Nat)).1).1 ++
        (⟨[], [], 0 + ([List.replicate 524288 (0 : Nat), List.replicate 524288 0,
          List.replicate 524288 0, List.replicate 427136 0] :
          List (List Nat)).length, true⟩ : DrainRes).evs) =
      (uploadBatch noFail 1 4 0 [List.replicate 524288 (0 : Nat),
        List.replicate 524288 0, List.replicate 524288 0,
        List.replicate 427136 0]).1 ++ ([] : List Ev) from rfl]
    rw [List.append_nil]
    rfl
  have hloop : runLoop noBudget noFail 1 4 CHUNK_SIZE PARALLEL_CHUNKS
      [List.replicate 2000000 (0 : Nat)] [] 0 0 =
      ((uploadBatch noFail 1 4 0 [List.replicate 524288 (0 : Nat),
          List.replicate 524288 0, List.replicate 524288 0,
          List.replicate 427136 0]).1, LoopExit.finished) := by
    rw [runLoop_cons_ok noBudget noFail 1 4 CHUNK_SIZE PARALLEL_CHUNKS
      (List.replicate 2000000 (0 : Nat)) [] [] 0 0 rfl
      (by rw [List.nil_append, List.length_replicate, hdrain])]
    rw [List.nil_append, List.length_replicate, hdrain]
    rw [runLoop_nil_empty noBudget noFail 1 4 CHUNK_SIZE PARALLEL_CHUNKS 4 (0 + 1) rfl]
    rw [List.append_nil]
  rw [runRelay_of_finished noBudget noFail "" 1 4 CHUNK_SIZE PARALLEL_CHUNKS
    "video.mp4" [List.replicate 2000000 (0 : Nat)] 0 (by rw [hloop])]
  rw [hloop]
  rw [saveLens, firstAttempts_append, uploadBatch_firstAttempts]
  rw [show firstAttempts [Ev.edit "✅ **Upload 100%!** Processing...",
       Ev.compose 1 4 "video.mp4", Ev.deleteCp] = [] from rfl]
  rw [List.append_nil]
  rw [show ([List.replicate 524288 (0 : Nat), List.replicate 524288 0,
      List.replicate 524288 0, List.replicate 427136 0].map List.length) =
    [(List.replicate 524288 (0 : Nat)).length, (List.replicate 524288 (0 : Nat)).length,
     (List.replicate 524288 (0 : Nat)).length, (List.replicate 427136 (0 : Nat)).length]
    from rfl]
  rw [List.length_replicate, List.length_replicate]

theorem replicate_ne_nil_of_pos (n : Nat) (h : 0 < n) (a : Nat) :
    List.replicate n a ≠ [] := by
  intro hnil
  have hlen := congrArg List.length hnil
  rw [List.length_replicate, List.length_nil] at hlen
  omega

theorem runLoop_nil_flush (budget : Nat → Bool) (fails : Nat → Nat → Bool)
    (fid tp p k : Nat) (buf : List Nat) (i iter : Nat)
    (hbud : budget iter = false) (hb : ¬ buf = [])
    (hok : (drainUpload fails fid tp p k buf.length true buf i).ok = true) :
    runLoop budget fails fid tp p k [] buf i iter =
      ((drainUpload fails fid tp p k buf.length true buf i).evs,
        LoopExit.finished) := by
  simp only [runLoop, hbud, Bool.false_eq_true, if_false, hb, hok, if_true]

/-! Evaluation of the mid-stream short-part anomaly: the reader delivers
524289 bytes in the first read and 524287 bytes in the second, so the batch
loop slices a 1-byte part at index 1 while the stream is still open. -/

theorem batchTake_anomaly_1 :
    batchTake CHUNK_SIZE 4 (List.replicate 524289 (0 : Nat)) =
      ([List.replicate 524288 (0 : Nat), List.replicate 1 0], []) := by
  have hp : 0 < CHUNK_SIZE := by norm_num [CHUNK_SIZE]
  rw [show (4 : Nat) = 3 + 1 from rfl]
  rw [batchTake_full CHUNK_SIZE 3 (List.replicate 524289 (0 : Nat)) hp
    (by rw [List.length_replicate]; norm_num [CHUNK_SIZE])]
  rw [List.take_replicate, List.drop_replicate,
    show min CHUNK_SIZE 524289 = 524288 from by rw [Nat.min_def]; norm_num [CHUNK_SIZE],
    show (524289 : Nat) - CHUNK_SIZE = 1 from by norm_num [CHUNK_SIZE]]
  rw [show (3 : Nat) = 2 + 1 from rfl]
  rw [batchTake_short CHUNK_SIZE 2 (List.replicate 1 (0 : Nat))
    (by rw [List.length_replicate]; norm_num)
    (by rw [List.length_replicate]; norm_num [CHUNK_SIZE])]

theorem batchTake_anomaly_2 :
    batchTake CHUNK_SIZE 4 (List.replicate 524287 (0 : Nat)) =
      ([List.replicate 524287 (0 : Nat)], []) := by
  rw [show (4 : Nat) = 3 + 1 from rfl]
  rw [batchTake_short CHUNK_SIZE 3 (List.replicate 524287 (0 : Nat))
    (by rw [List.length_replicate]; norm_num)
    (by rw [List.length_replicate]; norm_num [CHUNK_SIZE])]

theorem drain_anomaly_1 : drainUpload noFail 1 3 CHUNK_SIZE PARALLEL_CHUNKS 524289
    false (List.replicate 524289 (0 : Nat)) 0 =
    ⟨(uploadBatch noFail 1 3 0 [List.replicate 524288 (0 : Nat),
        List.replicate 1 0]).1, [], 2, true⟩ := by
  have hbt : batchTake CHUNK_SIZE PARALLEL_CHUNKS (List.replicate 524289 (0 : Nat)) =
      ([List.replicate 524288 (0 : Nat), List.replicate 1 0], []) := by
    rw [show PARALLEL_CHUNKS = 4 from rfl]
    exact batchTake_anomaly_1
  rw [drainUpload_step noFail 1 3 CHUNK_SIZE PARALLEL_CHUNKS 524289 false
    (List.replicate 524289 (0 : Nat)) 0 (by norm_num)
    (Or.inl (by rw [List.length_replicate]; norm_num [CHUNK_SIZE]))
    (by rw [hbt]; exact uploadBatch_ok_noFail 1 3 0 _)]
  rw [hbt]
  rw [drainUpload_stop noFail 1 3 CHUNK_SIZE PARALLEL_CHUNKS (524289 - 1) false
    [] (0 + ([List.replicate 524288 (0 : Nat), List.replicate 1 0] :
      List (List Nat)).length)
    (by intro hcon
        rcases hcon with hcon | hcon
        · rw [List.length_nil] at hcon
          norm_num [CHUNK_SIZE] at hcon
        · exact hcon.2 rfl)]
  rw [show ((uploadBatch noFail 1 3 0 ([List.replicate 524288 (0 : Nat),
      List.replicate 1 0], ([] : List Nat)).1).1 ++
      (⟨[], [], 0 + ([List.replicate 524288 (0 : Nat), List.replicate 1 0] :
        List (List Nat)).length, true⟩ : DrainRes).evs) =
    (uploadBatch noFail 1 3 0 [List.replicate 524288 (0 : Nat),
      List.replicate 1 0]).1 ++ ([] : List Ev) from rfl]
  rw [List.append_nil]
  rfl

theorem drain_anomaly_2 : drainUpload noFail 1 3 CHUNK_SIZE PARALLEL_CHUNKS 524287
    false (List.replicate 524287 (0 : Nat)) 2 =
    ⟨[], List.replicate 524287 (0 : Nat), 2, true⟩ := by
  refine drainUpload_stop noFail 1 3 CHUNK_SIZE PARALLEL_CHUNKS 524287 false
    (List.replicate 524287 (0 : Nat)) 2 ?_
  intro hcon
  rcases hcon with hcon | hcon
  · rw [List.length_replicate] at hcon
    norm_num [CHUNK_SIZE] at hcon
  · exact absurd hcon.1 (by decide)

theorem drain_anomaly_3 : drainUpload noFail 1 3 CHUNK_SIZE PARALLEL_CHUNKS 524287
    true (List.replicate 524287 (0 : Nat)) 2 =
    ⟨(uploadBatch noFail 1 3 2 [List.replicate 524287 (0 : Nat)]).1, [], 3, true⟩ := by
  have hbt : batchTake CHUNK_SIZE PARALLEL_CHUNKS (List.replicate 524287 (0 : Nat)) =
      ([List.replicate 524287 (0 : Nat)], []) := by
    rw [show PARALLEL_CHUNKS = 4 from rfl]
    exact batchTake_anomaly_2
  rw [drainUpload_step noFail 1 3 CHUNK_SIZE PARALLEL_CHUNKS 524287 true
    (List.replicate 524287 (0 : Nat)) 2 (by norm_num)
    (Or.inr ⟨rfl, replicate_ne_nil_of_pos 524287 (by norm_num) 0⟩)
    (by rw [hbt]; exact uploadBatch_ok_noFail 1 3 2 _)]
  rw [hbt]
  rw [drainUpload_stop noFail 1 3 CHUNK_SIZE PARALLEL_CHUNKS (524287 - 1) true
    [] (2 + ([List.replicate 524287 (0 : Nat)] : List (List Nat)).length)
    (by intro hcon
        rcases hcon with hcon | hcon
        · rw [List.length_nil] at hcon
          norm_num [CHUNK_SIZE] at hcon
        · exact hcon.2 rfl)]
  rw [show ((uploadBatch noFail 1 3 2 ([List.replicate 524287 (0 : Nat)],
      ([] : List Nat)).1).1 ++
      (⟨[], [], 2 + ([List.replicate 524287 (0 : Nat)] :
        List (List Nat)).length, true⟩ : DrainRes).evs) =
    (uploadBatch noFail 1 3 2 [List.replicate 524287 (0 : Nat)]).1 ++
      ([] : List Ev) from rfl]
  rw [List.append_nil]
  rfl

theorem runLoop_anomaly :
    runLoop noBudget noFail 1 3 CHUNK_SIZE PARALLEL_CHUNKS
      [List.replicate 524289 (0 : Nat), List.replicate 524287 0] [] 0 0 =
      ((uploadBatch noFail 1 3 0 [List.replicate 524288 (0 : Nat),
          List.replicate 1 0]).1 ++
        (uploadBatch noFail 1 3 2 [List.replicate 524287 (0 : Nat)]).1,
       LoopExit.finished) := by
  rw [runLoop_cons_ok noBudget noFail 1 3 CHUNK_SIZE PARALLEL_CHUNKS
    (List.replicate 524289 (0 : Nat)) [List.replicate 524287 (0 : Nat)] [] 0 0 rfl
    (by rw [List.nil_append, List.length_replicate, drain_anomaly_1])]
  rw [List.nil_append, List.length_replicate, drain_anomaly_1]
  rw [show ((⟨(uploadBatch noFail 1 3 0 [List.replicate 524288 (0 : Nat),
      List.replicate 1 0]).1, [], 2, true⟩ : DrainRes)).buf = ([] : List Nat) from rfl,
    show ((⟨(uploadBatch noFail 1 3 0 [List.replicate 524288 (0 : Nat),
      List.replicate 1 0]).1, [], 2, true⟩ : DrainRes)).idx = 2 from rfl]
  rw [runLoop_cons_ok noBudget noFail 1 3 CHUNK_SIZE PARALLEL_CHUNKS
    (List.replicate 524287 (0 : Nat)) [] [] 2 (0 + 1) rfl
    (by rw [List.nil_append, List.length_replicate, drain_anomaly_2])]
  rw [List.nil_append, List.length_replicate, drain_anomaly_2]
  rw [show ((⟨[], List.replicate 524287 (0 : Nat), 2, true⟩ : DrainRes)).buf =
    List.replicate 524287 (0 : Nat) from rfl,
    show ((⟨[], List.replicate 524287 (0 : Nat), 2, true⟩ : DrainRes)).idx = 2 from rfl,
    show ((⟨[], List.replicate 524287 (0 : Nat), 2, true⟩ : DrainRes)).evs =
      ([] : List Ev) from rfl]
  rw [runLoop_nil_flush noBudget noFail 1 3 CHUNK_SIZE PARALLEL_CHUNKS
    (List.replicate 524287 (0 : Nat)) 2 (0 + 1 + 1) rfl
    (replicate_ne_nil_of_pos 524287 (by norm_num) 0)
    (by rw [List.length_replicate, drain_anomaly_3])]
  rw [List.length_replicate, drain_anomaly_3]
  rw [List.nil_append]

/-- Claim C2 (code evaluation at the failing input): with reads of 524289
bytes and then 524287 bytes, the engine of src/worker.js emits parts of
lengths 524288, 1 and 524287 and finishes normally — the 1-byte part at
index 1 is emitted mid-stream (the accumulator held fewer than `partSize`
bytes and the stream had not ended) and is not the final part, contradicting
the claim that every emitted part except possibly the last is a full
`partSize` slice. -/
theorem claim_C2_code_eval :
    saveLens (runRelay noBudget noFail none "" 1 3 CHUNK_SIZE PARALLEL_CHUNKS "f"
      [List.replicate 524289 (0 : Nat), List.replicate 524287 0] 0).1
      = [524288, 1, 524287] ∧
    (runRelay noBudget noFail none "" 1 3 CHUNK_SIZE PARALLEL_CHUNKS "f"
      [List.replicate 524289 (0 : Nat), List.replicate 524287 0] 0).2
      = Outcome.done := by
  have hrel := runRelay_of_finished noBudget noFail "" 1 3 CHUNK_SIZE
    PARALLEL_CHUNKS "f" [List.replicate 524289 (0 : Nat), List.replicate 524287 0] 0
    (by rw [runLoop_anomaly])
  rw [hrel]
  refine ⟨?_, rfl⟩
  rw [runLoop_anomaly]
  rw [saveLens, firstAttempts_append, firstAttempts_append,
    uploadBatch_firstAttempts, uploadBatch_firstAttempts]
  rw [show firstAttempts [Ev.edit "✅ **Upload 100%!** Processing...",
       Ev.compose 1 3 "f", Ev.deleteCp] = [] from rfl]
  rw [List.append_nil]
  rw [show ([List.replicate 524288 (0 : Nat), List.replicate 1 0] ++
      [List.replicate 524287 (0 : Nat)]).map List.length =
    [(List.replicate 524288 (0 : Nat)).length, (List.replicate 1 (0 : Nat)).length,
     (List.replicate 524287 (0 : Nat)).length] from rfl]
  rw [List.length_replicate, List.length_replicate, List.length_replicate]

theorem runRelay_handedOff_inv (budget : Nat → Bool) (fails : Nat → Nat → Bool)
    (composeErr : Option String) (u : String) (fid tp p k : Nat) (fn : String)
    (reads : List (List Nat)) (startPart n : Nat)
    (h : (runRelay budget fails composeErr u fid tp p k fn reads startPart).2
      = Outcome.handedOff n) :
    (runLoop budget fails fid tp p k reads [] startPart 0).2
      = LoopExit.handedOff n ∧
    (runRelay budget fails composeErr u fid tp p k fn reads startPart).1 =
      (runLoop budget fails fid tp p k reads [] startPart 0).1 := by
  rcases hexit : (runLoop budget fails fid tp p k reads [] startPart 0).2
      with n2 | _ | _
  · simp only [runRelay] at h ⊢
    rw [hexit] at h ⊢
    simp at h
    subst h
    exact ⟨rfl, rfl⟩
  · exfalso
    simp only [runRelay] at h
    rw [hexit] at h
    rcases composeErr with _ | m <;> simp at h
  · exfalso
    simp only [runRelay] at h
    rw [hexit] at h
    simp at h

/-- Claim C3: whenever an invocation of the src/worker.js engine ends by
exceeding its execution budget, the run performs exactly one continuation
dispatch, it is the very last action of the trace (so no part upload is in
flight — every upload event, including all retries, precedes it, because the
budget check is only consulted at the top of the read loop after the previous
batch has been awaited), and the `nextPart` it carries equals `startPart`
plus the number of parts whose upload completed during this invocation.
Instantiating at a budget that fires after 7 of 20 parts yields a single
dispatch carrying `nextPartIndex = 7` (see the witness). -/
theorem claim_C3_budget_handoff (budget : Nat → Bool) (fails : Nat → Nat → Bool)
    (composeErr : Option String) (u : String) (fid tp p k : Nat) (fn : String)
    (reads : List (List Nat)) (startPart n : Nat)
    (h : (runRelay budget fails composeErr u fid tp p k fn reads startPart).2
      = Outcome.handedOff n) :
    countDispatch (runRelay budget fails composeErr u fid tp p k fn reads
      startPart).1 = 1 ∧
    (runRelay budget fails composeErr u fid tp p k fn reads startPart).1.getLast?
      = some (Ev.dispatch n) ∧
    (runRelay budget fails composeErr u fid tp p k fn reads
      startPart).1.dropLast.all isSave = true ∧
    n = startPart + count0 (runRelay budget fails composeErr u fid tp p k fn
      reads startPart).1 := by
  obtain ⟨hexit, hevs⟩ := runRelay_handedOff_inv budget fails composeErr u fid tp
    p k fn reads startPart n h
  obtain ⟨pre, hpre, hsaves, hn⟩ := runLoop_handedOff budget fails fid tp p k
    reads [] startPart 0 n hexit
  rw [hevs, hpre]
  refine ⟨?_, ?_, ?_, ?_⟩
  · rw [countDispatch_append, countDispatch_of_saves pre hsaves]
    rfl
  · exact List.getLast?_concat pre
  · rw [List.dropLast_concat]
    exact List.all_eq_true.mpr hsaves
  · rw [count0_append]
    have h0 : count0 [Ev.dispatch n] = 0 := rfl
    omega

/-- Witness for claim C3: a run with part size 2 and a budget that fires at
the third loop iteration completes 7 parts (4 in the first batch, 3 in the
second) and then dispatches exactly one continuation carrying
`nextPartIndex = 7`, mirroring the "7 of 20 parts" scenario of the spec. -/
theorem claim_C3_budget_handoff_witness :
    countDispatch (runRelay (fun it => decide (2 ≤ it)) noFail none "" 1 20 2 4 "f"
      [[0, 1, 2, 3, 4, 5, 6, 7], [8, 9, 10, 11, 12, 13]] 0).1 = 1 ∧
    (runRelay (fun it => decide (2 ≤ it)) noFail none "" 1 20 2 4 "f"
      [[0, 1, 2, 3, 4, 5, 6, 7], [8, 9, 10, 11, 12, 13]] 0).1.getLast?
      = some (Ev.dispatch 7) ∧
    (runRelay (fun it => decide (2 ≤ it)) noFail none "" 1 20 2 4 "f"
      [[0, 1, 2, 3, 4, 5, 6, 7], [8, 9, 10, 11, 12, 13]] 0).1.dropLast.all isSave
      = true ∧
    7 = 0 + count0 (runRelay (fun it => decide (2 ≤ it)) noFail none "" 1 20 2 4 "f"
      [[0, 1, 2, 3, 4, 5, 6, 7], [8, 9, 10, 11, 12, 13]] 0).1 :=
  claim_C3_budget_handoff (fun it => decide (2 ≤ it)) noFail none "" 1 20 2 4 "f"
    [[0, 1, 2, 3, 4, 5, 6, 7], [8, 9, 10, 11, 12, 13]] 0 7 (by decide)

theorem hasCompose_append (l1 l2 : List Ev) :
    hasCompose (l1 ++ l2) = (hasCompose l1 || hasCompose l2) := by
  simp [hasCompose]

theorem hasDelete_append (l1 l2 : List Ev) :
    hasDelete (l1 ++ l2) = (hasDelete l1 || hasDelete l2) := by
  simp [hasDelete]

theorem hasNotify_append (l1 l2 : List Ev) :
    hasNotify (l1 ++ l2) = (hasNotify l1 || hasNotify l2) := by
  simp [hasNotify]

theorem hasCompose_of_saves (l : List Ev) (h : ∀ e ∈ l, isSave e = true) :
    hasCompose l = false := by
  simp only [hasCompose, List.any_eq_false]
  intro e he
  have := h e he
  cases e <;> simp_all [isSave]

theorem hasDelete_of_saves (l : List Ev) (h : ∀ e ∈ l, isSave e = true) :
    hasDelete l = false := by
  simp only [hasDelete, List.any_eq_false]
  intro e he
  have := h e he
  cases e <;> simp_all [isSave]

theorem hasNotify_of_saves (l : List Ev) (h : ∀ e ∈ l, isSave e = true) :
    hasNotify l = false := by
  simp only [hasNotify, List.any_eq_false]
  intro e he
  have := h e he
  cases e <;> simp_all [isSave]

theorem runRelay_failed_of_loop (budget : Nat → Bool) (fails : Nat → Nat → Bool)
    (composeErr : Option String) (u : String) (fid tp p k : Nat) (fn : String)
    (reads : List (List Nat)) (startPart : Nat)
    (hfail : (runLoop budget fails fid tp p k reads [] startPart 0).2
      = LoopExit.failed) :
    runRelay budget fails composeErr u fid tp p k fn reads startPart =
      ((runLoop budget fails fid tp p k reads [] startPart 0).1 ++
        [Ev.notify (errTag ++ u)], Outcome.failed) := by
  simp only [runRelay]
  rw [hfail]

/-- Claim C4: each part upload is attempted at most twice — on a first
failure exactly one immediate retry is issued with the same `fileId`
(session handle), `filePart` index, `fileTotalParts` and the same bytes — and
the part fails for good exactly when both attempts fail; when that happens
the whole invocation aborts: the run ends in the failed outcome, no compose
call and no checkpoint deletion appear in the trace, and no continuation is
dispatched, so no finalize is ever issued for the aborted session. -/
theorem claim_C4_retry_abort :
    (∀ (fails : Nat → Nat → Bool) (fid tp i : Nat) (c : List Nat),
      ((uploadChunk fails fid tp i c).1 = [Ev.save fid i tp c 0] ∨
        (uploadChunk fails fid tp i c).1
          = [Ev.save fid i tp c 0, Ev.save fid i tp c 1]) ∧
      ((uploadChunk fails fid tp i c).2 = false ↔
        (fails i 0 = true ∧ fails i 1 = true))) ∧
    (∀ (budget : Nat → Bool) (fails : Nat → Nat → Bool) (composeErr : Option String)
      (u : String) (fid tp p k : Nat) (fn : String) (reads : List (List Nat))
      (startPart : Nat),
      (runLoop budget fails fid tp p k reads [] startPart 0).2 = LoopExit.failed →
      (runRelay budget fails composeErr u fid tp p k fn reads startPart).2
        = Outcome.failed ∧
      hasCompose (runRelay budget fails composeErr u fid tp p k fn reads
        startPart).1 = false ∧
      hasDelete (runRelay budget fails composeErr u fid tp p k fn reads
        startPart).1 = false ∧
      countDispatch (runRelay budget fails composeErr u fid tp p k fn reads
        startPart).1 = 0) := by
  constructor
  · intro fails fid tp i c
    constructor
    · by_cases h0 : fails i 0 <;> simp [uploadChunk, h0]
    · by_cases h0 : fails i 0 <;> by_cases h1 : fails i 1 <;>
        simp [uploadChunk, h0, h1]
  · intro budget fails composeErr u fid tp p k fn reads startPart hfail
    have hsaves := runLoop_failed_trace budget fails fid tp p k reads []
      startPart 0 hfail
    rw [runRelay_failed_of_loop budget fails composeErr u fid tp p k fn reads
      startPart hfail]
    refine ⟨rfl, ?_, ?_, ?_⟩
    · rw [hasCompose_append, hasCompose_of_saves _ hsaves]
      rfl
    · rw [hasDelete_append, hasDelete_of_saves _ hsaves]
      rfl
    · rw [countDispatch_append, countDispatch_of_saves _ hsaves]
      rfl

/-- Witness for claim C4: with part size 2 and an oracle that fails both
attempts of part 1, the run over a 4-byte stream aborts with no compose, no
checkpoint deletion and no continuation dispatch. -/
theorem claim_C4_retry_abort_witness :
    (runRelay noBudget (fun i _ => decide (i = 1)) none "" 9 2 2 4 "f"
      [[0, 1, 2, 3]] 0).2 = Outcome.failed ∧
    hasCompose (runRelay noBudget (fun i _ => decide (i = 1)) none "" 9 2 2 4 "f"
      [[0, 1, 2, 3]] 0).1 = false ∧
    hasDelete (runRelay noBudget (fun i _ => decide (i = 1)) none "" 9 2 2 4 "f"
      [[0, 1, 2, 3]] 0).1 = false ∧
    countDispatch (runRelay noBudget (fun i _ => decide (i = 1)) none "" 9 2 2 4 "f"
      [[0, 1, 2, 3]] 0).1 = 0 :=
  claim_C4_retry_abort.2 noBudget (fun i _ => decide (i = 1)) none "" 9 2 2 4 "f"
    [[0, 1, 2, 3]] 0 (by decide)

theorem runLoop_finished_trace (budget : Nat → Bool) (fails : Nat → Nat → Bool)
    (fid tp p k : Nat) :
    ∀ (rs : List (List Nat)) (buf : List Nat) (i iter : Nat),
    (runLoop budget fails fid tp p k rs buf i iter).2 = LoopExit.finished →
    ∀ e ∈ (runLoop budget fails fid tp p k rs buf i iter).1, isSave e = true := by
  intro rs
  induction rs with
  | nil =>
    intro buf i iter h
    by_cases hbud : budget iter = true
    · simp [runLoop, hbud] at h
    · by_cases hb : buf = []
      · simp [runLoop, hbud, hb]
      · rcases hok : (drainUpload fails fid tp p k buf.length true buf i).ok with _ | _
        · simp [runLoop, hbud, hb, hok] at h
        · simp only [runLoop, hbud, Bool.false_eq_true, if_false, hb, hok, if_true]
          exact drainUpload_saves fails fid tp p k buf.length true buf i
  | cons r rest ih =>
    intro buf i iter h
    by_cases hbud : budget iter = true
    · simp [runLoop, hbud] at h
    · rcases hok : (drainUpload fails fid tp p k (buf ++ r).length false (buf ++ r) i).ok
          with _ | _
      · exfalso
        simp only [runLoop, hbud, Bool.false_eq_true, if_false, hok] at h
        simp at h
      · simp only [runLoop, hbud, Bool.false_eq_true, if_false, hok, if_true] at h ⊢
        intro e he
        rcases List.mem_append.mp he with hh | hh
        · exact drainUpload_saves fails fid tp p k _ false (buf ++ r) i e hh
        · exact ih _ _ _ h e hh

/-- Claim C5: for a transfer whose upload loop completes, a failed compose
call (`messages.SendMedia` throwing) leaves the session in the failed
terminal outcome, issues no checkpoint deletion (the store entry for the
sourceKey is untouched: the only delete in the code is the one skipped by the
thrown compose), and surfaces the compose error verbatim, appended to the
`❌ **Error:** ` chat notification, while the compose call itself does appear
in the trace; a successful compose instead ends in the done outcome and
deletes the checkpoint. -/
theorem claim_C5_finalizer :
    (∀ (m u : String) (fid tp : Nat) (fn : String) (reads : List (List Nat)),
      (runRelay noBudget noFail (some m) u fid tp CHUNK_SIZE PARALLEL_CHUNKS fn
        reads 0).2 = Outcome.failed ∧
      hasDelete (runRelay noBudget noFail (some m) u fid tp CHUNK_SIZE
        PARALLEL_CHUNKS fn reads 0).1 = false ∧
      Ev.notify (errTag ++ m) ∈ (runRelay noBudget noFail (some m) u fid tp
        CHUNK_SIZE PARALLEL_CHUNKS fn reads 0).1 ∧
      hasCompose (runRelay noBudget noFail (some m) u fid tp CHUNK_SIZE
        PARALLEL_CHUNKS fn reads 0).1 = true) ∧
    (∀ (u : String) (fid tp : Nat) (fn : String) (reads : List (List Nat)),
      (runRelay noBudget noFail none u fid tp CHUNK_SIZE PARALLEL_CHUNKS fn
        reads 0).2 = Outcome.done ∧
      hasDelete (runRelay noBudget noFail none u fid tp CHUNK_SIZE
        PARALLEL_CHUNKS fn reads 0).1 = true) := by
  have hp : 0 < CHUNK_SIZE := by norm_num [CHUNK_SIZE]
  have hk : 0 < PARALLEL_CHUNKS := by norm_num [PARALLEL_CHUNKS]
  constructor
  · intro m u fid tp fn reads
    obtain ⟨hexit, _⟩ := runLoop_noFail_spec fid tp CHUNK_SIZE PARALLEL_CHUNKS
      hp hk reads [] 0 0
    have hsaves := runLoop_finished_trace noBudget noFail fid tp CHUNK_SIZE
      PARALLEL_CHUNKS reads [] 0 0 hexit
    have hrel : runRelay noBudget noFail (some m) u fid tp CHUNK_SIZE
        PARALLEL_CHUNKS fn reads 0 =
        ((runLoop noBudget noFail fid tp CHUNK_SIZE PARALLEL_CHUNKS reads [] 0 0).1
          ++ [Ev.edit "✅ **Upload 100%!** Processing...",
              Ev.compose fid tp fn, Ev.notify (errTag ++ m)], Outcome.failed) := by
      simp only [runRelay]
      rw [hexit]
    rw [hrel]
    refine ⟨rfl, ?_, ?_, ?_⟩
    · rw [hasDelete_append, hasDelete_of_saves _ hsaves]
      rfl
    · exact List.mem_append.mpr (Or.inr (by simp))
    · rw [hasCompose_append]
      have : hasCompose [Ev.edit "✅ **Upload 100%!** Processing...",
          Ev.compose fid tp fn, Ev.notify (errTag ++ m)] = true := rfl
      rw [this, Bool.or_true]
  · intro u fid tp fn reads
    obtain ⟨hexit, _⟩ := runLoop_noFail_spec fid tp CHUNK_SIZE PARALLEL_CHUNKS
      hp hk reads [] 0 0
    have hrel : runRelay noBudget noFail none u fid tp CHUNK_SIZE
        PARALLEL_CHUNKS fn reads 0 =
        ((runLoop noBudget noFail fid tp CHUNK_SIZE PARALLEL_CHUNKS reads [] 0 0).1
          ++ [Ev.edit "✅ **Upload 100%!** Processing...",
              Ev.compose fid tp fn, Ev.deleteCp], Outcome.done) := by
      simp only [runRelay]
      rw [hexit]
    rw [hrel]
    refine ⟨rfl, ?_⟩
    rw [hasDelete_append]
    have : hasDelete [Ev.edit "✅ **Upload 100%!** Processing...",
        Ev.compose fid tp fn, Ev.deleteCp] = true := rfl
    rw [this, Bool.or_true]

/-! Continuation trigger (src/worker.js lines 241-253). -/

/-- Observable actions of `triggerNextWorker`: a dispatch fetch attempt, or
the 1-second backoff sleep taken after a failed attempt. -/
inductive TnwEv where
  | fetchTry (i : Nat)
  | sleep (ms : Nat)
deriving DecidableEq, Repr

/-- The retry loop of `triggerNextWorker` (src/worker.js lines 244-252):
`for(let i=0;i<3;i++)` — try the dispatch fetch, break on success, and on an
exception wait 1000 ms and try again.  `fetchFails i` tells whether the i-th
attempt throws. -/
def tnwLoop (fetchFails : Nat → Bool) : Nat → Nat → List TnwEv
  | 0, _ => []
  | n + 1, i =>
    if fetchFails i then
      TnwEv.fetchTry i :: TnwEv.sleep 1000 :: tnwLoop fetchFails n (i + 1)
    else [TnwEv.fetchTry i]

/-- `triggerNextWorker` (src/worker.js lines 241-253): returns immediately
when `env.WORKER_URL` is unset, otherwise runs the 3-attempt retry loop.  It
catches every fetch exception, so it never throws: exhausting the retries
simply returns, surfacing nothing. -/
def triggerNextWorker (hasWorkerUrl : Bool) (fetchFails : Nat → Bool) :
    List TnwEv :=
  if hasWorkerUrl then tnwLoop fetchFails 3 0 else []

/-- Number of dispatch fetch attempts in a `triggerNextWorker` trace. -/
def countAttempts (evs : List TnwEv) : Nat :=
  (evs.filter fun e => match e with | .fetchTry _ => true | _ => false).length

/-- Claim C7: the continuation dispatch is attempted at most 3 times; when
every attempt fails the trace is exactly three attempts each followed by the
1000 ms backoff sleep, after which no further automatic attempt is made (the
function returns normally); and an invocation that ends by handing off
(the only path that calls `triggerNextWorker`) sends no error notification to
the requester, so exhausted dispatch retries stall the session silently. -/
theorem claim_C7_continuation :
    (∀ (h : Bool) (f : Nat → Bool),
      countAttempts (triggerNextWorker h f) ≤ 3) ∧
    (∀ f : Nat → Bool, (∀ i, f i = true) →
      triggerNextWorker true f =
        [TnwEv.fetchTry 0, TnwEv.sleep 1000, TnwEv.fetchTry 1, TnwEv.sleep 1000,
         TnwEv.fetchTry 2, TnwEv.sleep 1000]) ∧
    (∀ (budget : Nat → Bool) (fails : Nat → Nat → Bool) (composeErr : Option String)
      (u : String) (fid tp p k : Nat) (fn : String) (reads : List (List Nat))
      (startPart n : Nat),
      (runRelay budget fails composeErr u fid tp p k fn reads startPart).2
        = Outcome.handedOff n →
      hasNotify (runRelay budget fails composeErr u fid tp p k fn reads
        startPart).1 = false) := by
  refine ⟨?_, ?_, ?_⟩
  · intro h f
    cases h
    · simp [triggerNextWorker, countAttempts]
    · by_cases h0 : f 0 <;> by_cases h1 : f 1 <;> by_cases h2 : f 2 <;>
        simp [triggerNextWorker, tnwLoop, countAttempts, h0, h1, h2]
  · intro f hf
    simp [triggerNextWorker, tnwLoop, hf]
  · intro budget fails composeErr u fid tp p k fn reads startPart n h
    obtain ⟨hexit, hevs⟩ := runRelay_handedOff_inv budget fails composeErr u
      fid tp p k fn reads startPart n h
    obtain ⟨pre, hpre, hsaves, _⟩ := runLoop_handedOff budget fails fid tp p k
      reads [] startPart 0 n hexit
    rw [hevs, hpre, hasNotify_append, hasNotify_of_saves pre hsaves]
    rfl

/-- Witness for claim C7: all-failing dispatch attempts produce exactly the
3-attempt backoff trace, and the concrete handed-off run of part size 2 ends
with no error notification. -/
theorem claim_C7_continuation_witness :
    triggerNextWorker true (fun _ => true) =
      [TnwEv.fetchTry 0, TnwEv.sleep 1000, TnwEv.fetchTry 1, TnwEv.sleep 1000,
       TnwEv.fetchTry 2, TnwEv.sleep 1000] ∧
    hasNotify (runRelay (fun it => decide (1 ≤ it)) noFail none "" 1 20 2 4 "f"
      [[0, 1, 2, 3]] 0).1 = false :=
  ⟨claim_C7_continuation.2.1 (fun _ => true) (fun _ => rfl),
   claim_C7_continuation.2.2 (fun it => decide (1 ≤ it)) noFail none "" 1 20 2 4
     "f" [[0, 1, 2, 3]] 0 2 (by decide)⟩

/-! Session setup and checkpoint lifecycle (src/worker.js lines 74-95). -/

/-- The persisted `state` object of src/worker.js line 93:
`{ fileId, totalParts, filename, totalSize }`. -/
structure RelayState where
  fileId : Nat
  totalParts : Nat
  filename : String
  totalSize : Nat
deriving DecidableEq, Repr

/-- The state-initialization decision of src/worker.js lines 74-95: a fresh
session (with a newly drawn random `fileId`) is created exactly when
`startPart === 0 || !state`; otherwise the stored checkpoint state is used
unchanged.  Returns the session used by this invocation and whether it was
freshly created. -/
def setupState (startPart : Nat) (stored : Option RelayState)
    (fresh : RelayState) : RelayState × Bool :=
  if startPart = 0 ∨ stored = none then (fresh, true)
  else (stored.getD fresh, false)

/-- One invocation's effect on the checkpoint store: a freshly created state
is written back with `LEECH_DB.put` (line 94); otherwise the store entry is
left as it was. -/
def chainStep (store : Option RelayState) (startPart : Nat)
    (fresh : RelayState) : (RelayState × Bool) × Option RelayState :=
  let r := setupState startPart store fresh
  (r, if r.2 then some r.1 else store)

/-- A job chain for one sourceKey: the successive invocations, each carrying
the `startPart` from the continuation payload and the fresh state it would
create if it had to; the checkpoint store is threaded through. -/
def runChain : Option RelayState → List (Nat × RelayState) →
    List (RelayState × Bool)
  | _, [] => []
  | store, (sp, fresh) :: rest =>
    let s := chainStep store sp fresh
    s.1 :: runChain s.2 rest

theorem runChain_resumed (rest : List (Nat × RelayState))
    (hpos : ∀ x ∈ rest, x.1 ≠ 0) (f0 : RelayState) :
    (runChain (some f0) rest).map Prod.fst = List.replicate rest.length f0 ∧
    (runChain (some f0) rest).map Prod.snd = List.replicate rest.length false := by
  induction rest with
  | nil => simp [runChain]
  | cons x rest ih =>
    obtain ⟨sp, fr⟩ := x
    have hsp : sp ≠ 0 := hpos (sp, fr) (List.mem_cons_self ..)
    have hsetup : setupState sp (some f0) fr = (f0, false) := by
      rw [setupState, if_neg]
      · rfl
      · simp [hsp]
    obtain ⟨ih1, ih2⟩ := ih (fun y hy => hpos y (List.mem_cons_of_mem _ hy))
    constructor
    · simp only [runChain, chainStep, hsetup]
      simp [ih1, List.replicate_succ]
    · simp only [runChain, chainStep, hsetup]
      simp [ih2, List.replicate_succ]

/-- Claim C8: a resumed invocation (`nextPartIndex > 0`) with an existing
checkpoint uses the stored session and creates nothing; a whole job chain
started at index 0 creates the session exactly once — every later resumed
invocation uses the same `fileId` state — and a job (re)started from index 0
against an existing checkpoint deterministically discards the stale session:
it uses the fresh identity only and overwrites the store with it, never
mixing the two session identities. -/
theorem claim_C8_session :
    (∀ (sp : Nat) (s fresh : RelayState), sp ≠ 0 →
      setupState sp (some s) fresh = (s, false)) ∧
    (∀ (f0 : RelayState) (rest : List (Nat × RelayState)),
      (∀ x ∈ rest, x.1 ≠ 0) →
      (runChain none ((0, f0) :: rest)).map Prod.fst
        = List.replicate (rest.length + 1) f0 ∧
      (runChain none ((0, f0) :: rest)).map Prod.snd
        = true :: List.replicate rest.length false) ∧
    (∀ old fresh : RelayState,
      chainStep (some old) 0 fresh = ((fresh, true), some fresh)) := by
  refine ⟨?_, ?_, ?_⟩
  · intro sp s fresh hsp
    rw [setupState, if_neg]
    · rfl
    · simp [hsp]
  · intro f0 rest hpos
    have hsetup : setupState 0 none f0 = (f0, true) := by
      rw [setupState, if_pos (Or.inl rfl)]
    obtain ⟨h1, h2⟩ := runChain_resumed rest hpos f0
    constructor
    · simp only [runChain, chainStep, hsetup]
      simp [h1, List.replicate_succ]
    · simp only [runChain, chainStep, hsetup]
      simp [h2]
  · intro old fresh
    rw [chainStep, setupState, if_pos (Or.inl rfl)]
    simp

/-- Witness for claim C8: a concrete three-invocation chain (start at 0,
resume at 4 and 8) uses the initially created session throughout, creating it
exactly once; and a restart at 0 over a stale checkpoint uses and stores only
the fresh session. -/
theorem claim_C8_session_witness :
    setupState 5 (some ⟨77, 4, "a.mp4", 2000000⟩) ⟨88, 4, "a.mp4", 2000000⟩
      = (⟨77, 4, "a.mp4", 2000000⟩, false) ∧
    ((runChain none [(0, ⟨77, 4, "a.mp4", 2000000⟩),
        (4, ⟨88, 4, "a.mp4", 2000000⟩), (8, ⟨99, 4, "a.mp4", 2000000⟩)]).map
      Prod.fst = List.replicate 3 ⟨77, 4, "a.mp4", 2000000⟩ ∧
     (runChain none [(0, ⟨77, 4, "a.mp4", 2000000⟩),
        (4, ⟨88, 4, "a.mp4", 2000000⟩), (8, ⟨99, 4, "a.mp4", 2000000⟩)]).map
      Prod.snd = true :: List.replicate 2 false) ∧
    chainStep (some ⟨77, 4, "a.mp4", 2000000⟩) 0 ⟨88, 4, "a.mp4", 2000000⟩
      = ((⟨88, 4, "a.mp4", 2000000⟩, true), some ⟨88, 4, "a.mp4", 2000000⟩) :=
  ⟨claim_C8_session.1 5 ⟨77, 4, "a.mp4", 2000000⟩ ⟨88, 4, "a.mp4", 2000000⟩
     (by decide),
   claim_C8_session.2.1 ⟨77, 4, "a.mp4", 2000000⟩
     [(4, ⟨88, 4, "a.mp4", 2000000⟩), (8, ⟨99, 4, "a.mp4", 2000000⟩)]
     (by decide),
   claim_C8_session.2.2 ⟨77, 4, "a.mp4", 2000000⟩ ⟨88, 4, "a.mp4", 2000000⟩⟩

/-- Claim C1: for the engine of src/worker.js with its fixed 512 KiB part
size, `totalParts` is computed as the ceiling of `totalSize / partSize`; for
every read stream delivered without failures or budget exhaustion the run
finishes and the lengths of the emitted parts sum exactly to the number of
source bytes; and the spec example `totalSize = 2,000,000` yields 4 parts of
lengths 524288, 524288, 524288, 427136 with `totalParts = 4`. -/
theorem claim_C1_parts :
    (∀ n : Nat, totalPartsOf n = ⌈(n : ℚ) / (CHUNK_SIZE : ℚ)⌉₊) ∧
    (∀ (fid tp : Nat) (fn u : String) (reads : List (List Nat)),
      (runRelay noBudget noFail none u fid tp CHUNK_SIZE PARALLEL_CHUNKS fn reads 0).2
        = Outcome.done ∧
      (saveLens (runRelay noBudget noFail none u fid tp CHUNK_SIZE PARALLEL_CHUNKS
        fn reads 0).1).sum = reads.flatten.length) ∧
    (saveLens (runRelay noBudget noFail none "" 1 4 CHUNK_SIZE PARALLEL_CHUNKS
        "video.mp4" [List.replicate 2000000 (0 : Nat)] 0).1 =
      [524288, 524288, 524288, 427136] ∧
      totalPartsOf 2000000 = 4) := by
  refine ⟨?_, ?_, runRelay_example, by norm_num [totalPartsOf, CHUNK_SIZE]⟩
  · intro n
    exact add_pred_div_eq_ceil n CHUNK_SIZE (by norm_num [CHUNK_SIZE])
  · intro fid tp fn u reads
    exact runRelay_noFail_spec fid tp CHUNK_SIZE PARALLEL_CHUNKS
      (by norm_num [CHUNK_SIZE]) (by norm_num [PARALLEL_CHUNKS]) fn u reads

/-- Number of part-upload attempts in a trace. -/
def countSaves (evs : List Ev) : Nat := (evs.filter isSave).length

end Turbo

namespace Relay1

/-- `const MAX_RUNTIME = 80 * 1000` (src/unnamed/part_001 line 59). -/
def MAX_RUNTIME : Nat := 80 * 1000

/-- `const CHUNK_SIZE = 512 * 1024` (src/unnamed/part_001 lines 86/98). -/
def CHUNK_SIZE : Nat := 512 * 1024

/-- `const supportsRange = head.headers.get("accept-ranges") === "bytes"`
(src/unnamed/part_001 line 76). -/
def supportsRange (acceptRanges : Option String) : Bool :=
  acceptRanges == some "bytes"

/-- The range-unsupported error message of src/unnamed/part_001 line 80 (the
source text contracts "does not"). -/
def rangeErrMsg : String :=
  "Source server does not support resuming (Range Headers). Cannot process huge file."

/-- The finalizing status message of src/unnamed/part_001 line 164. -/
def finMsg : String := "✅ **Upload 100%!** Finalizing..."

/-- The sequential inner upload loop of src/unnamed/part_001 lines 138-150:
`while (buffer.length >= CHUNK_SIZE)` upload one full chunk (a single
`SaveBigFilePart` invocation, no retry) and advance `partIdx`; a thrown
upload aborts the run.  `fails1 i` tells whether the upload of part `i`
throws; a throw happens before `partIdx++`. -/
def seqDrain (fails1 : Nat → Bool) (fid tp p : Nat) :
    Nat → List Nat → Nat → Turbo.DrainRes
  | 0, buf, i => ⟨[], buf, i, true⟩
  | fuel + 1, buf, i =>
    if p ≤ buf.length then
      if fails1 i then ⟨[Turbo.Ev.save fid i tp (buf.take p) 0], buf.drop p, i, false⟩
      else
        let r := seqDrain fails1 fid tp p fuel (buf.drop p) (i + 1)
        ⟨Turbo.Ev.save fid i tp (buf.take p) 0 :: r.evs, r.buf, r.idx, r.ok⟩
    else ⟨[], buf, i, true⟩

/-- Result of the main read loop of src/unnamed/part_001 lines 116-151: the
events, the accumulator left for the end-of-stream flush, the next part
index, and how the loop ended. -/
structure LoopRes where
  evs : List Turbo.Ev
  buf : List Nat
  idx : Nat
  exit : Turbo.LoopExit
deriving Repr

/-- The main read loop of src/unnamed/part_001 lines 116-151: time check at
the top of each iteration (handing off through `triggerNextWorker` when over
budget; the sparse `partIdx % 20` progress message of lines 123-126 is
elided), then one read — `if (done) break` keeps the remainder buffer for the
flush — then append and drain full chunks. -/
def runLoop (budget : Nat → Bool) (fails1 : Nat → Bool) (fid tp p : Nat) :
    List (List Nat) → List Nat → Nat → Nat → LoopRes
  | rs, buf, i, iter =>
    if budget iter then ⟨[Turbo.Ev.dispatch i], buf, i, .handedOff i⟩
    else
      match rs with
      | [] => ⟨[], buf, i, .finished⟩
      | r :: rest =>
        let buf1 := buf ++ r
        let d := seqDrain fails1 fid tp p buf1.length buf1 i
        if d.ok then
          let t := runLoop budget fails1 fid tp p rest d.buf d.idx (iter + 1)
          ⟨d.evs ++ t.evs, t.buf, t.idx, t.exit⟩
        else ⟨d.evs, d.buf, d.idx, .failed⟩

/-- One `runRelay` invocation of src/unnamed/part_001 (lines 55-191), from
the metadata fetch on: the huge-file guard of lines 76-81 runs before the
upload loop on every invocation — `if (!supportsRange && totalSize >
50*1024*1024) throw` — and the thrown error reaches the catch-all
`sendMessage` of line 186, so no upload is ever attempted for such a source.
Otherwise the read loop runs; on stream end a non-empty remainder is flushed
as one final short part (lines 153-161), then the compose call
`messages.SendMedia` (lines 166-180) and the checkpoint deletion (line 183)
follow as in the turbo variant. -/
def runRelay (budget : Nat → Bool) (fails1 : Nat → Bool)
    (composeErr : Option String) (uploadErrMsg : String)
    (acceptRanges : Option String) (totalSize : Nat)
    (fid tp p : Nat) (fn : String) (reads : List (List Nat)) (startPart : Nat) :
    List Turbo.Ev × Turbo.Outcome :=
  if ¬ supportsRange acceptRanges ∧ 50 * 1024 * 1024 < totalSize then
    ([Turbo.Ev.notify (Turbo.errTag ++ rangeErrMsg)], Turbo.Outcome.failed)
  else
    let l := runLoop budget fails1 fid tp p reads [] startPart 0
    match l.exit with
    | .handedOff n => (l.evs, .handedOff n)
    | .failed => (l.evs ++ [Turbo.Ev.notify (Turbo.errTag ++ uploadErrMsg)],
        .failed)
    | .finished =>
      let flushEvs : List Turbo.Ev :=
        if l.buf = [] then [] else [Turbo.Ev.save fid l.idx tp l.buf 0]
      if l.buf ≠ [] ∧ fails1 l.idx then
        (l.evs ++ flushEvs ++ [Turbo.Ev.notify (Turbo.errTag ++ uploadErrMsg)],
          .failed)
      else
        match composeErr with
        | some m => (l.evs ++ flushEvs ++ [Turbo.Ev.notify finMsg,
            Turbo.Ev.compose fid tp fn, Turbo.Ev.notify (Turbo.errTag ++ m)],
            .failed)
        | none => (l.evs ++ flushEvs ++ [Turbo.Ev.notify finMsg,
            Turbo.Ev.compose fid tp fn, Turbo.Ev.deleteCp], .done)

/-- Claim C6: in the relay of src/unnamed/part_001, a source that does not
honor byte-range requests (`accept-ranges` header not `bytes`) with
`totalSize` over the 50 MiB single-window threshold makes the session fail
fast with the range-unsupported error before the upload loop: the whole trace
is the single error notification, and in particular it contains no
`SaveBigFilePart` — no bytes are ever uploaded for such a source. -/
theorem claim_C6_range_guard (budget : Nat → Bool) (fails1 : Nat → Bool)
    (composeErr : Option String) (u : String) (acceptRanges : Option String)
    (totalSize : Nat) (fid tp p : Nat) (fn : String) (reads : List (List Nat))
    (startPart : Nat) (hnr : supportsRange acceptRanges = false)
    (hbig : 50 * 1024 * 1024 < totalSize) :
    runRelay budget fails1 composeErr u acceptRanges totalSize fid tp p fn reads
        startPart
      = ([Turbo.Ev.notify (Turbo.errTag ++ rangeErrMsg)], Turbo.Outcome.failed) ∧
    Turbo.countSaves (runRelay budget fails1 composeErr u acceptRanges totalSize
      fid tp p fn reads startPart).1 = 0 := by
  have hcond : ¬ supportsRange acceptRanges ∧ 50 * 1024 * 1024 < totalSize :=
    ⟨by simp [hnr], hbig⟩
  have hrel : runRelay budget fails1 composeErr u acceptRanges totalSize fid tp p
      fn reads startPart
      = ([Turbo.Ev.notify (Turbo.errTag ++ rangeErrMsg)], Turbo.Outcome.failed) := by
    rw [runRelay, if_pos hcond]
  exact ⟨hrel, by rw [hrel]; rfl⟩

/-- Witness for claim C6: a 60 MiB source whose response carries no
`accept-ranges: bytes` header is rejected with the range error and zero
upload attempts. -/
theorem claim_C6_range_guard_witness :
    runRelay Turbo.noBudget (fun _ => false) none "" none (60 * 1024 * 1024)
        1 120 CHUNK_SIZE "f" [[0, 1, 2]] 0
      = ([Turbo.Ev.notify (Turbo.errTag ++ rangeErrMsg)], Turbo.Outcome.failed) ∧
    Turbo.countSaves (runRelay Turbo.noBudget (fun _ => false) none "" none
      (60 * 1024 * 1024) 1 120 CHUNK_SIZE "f" [[0, 1, 2]] 0).1 = 0 :=
  claim_C6_range_guard Turbo.noBudget (fun _ => false) none "" none
    (60 * 1024 * 1024) 1 120 CHUNK_SIZE "f" [[0, 1, 2]] 0 (by decide)
    (by norm_num)

end Relay1

/-! Single-shot variants: src/Worker.js (`Simple`) and src/unnamed/part_003
(`Cobalt`). -/

/-- Observable actions of the single-shot `processLeech` helpers: a chat
notification, or the streaming upload of the document body to the
`sendDocument` endpoint (recorded with the byte size it advertises). -/
inductive SEv where
  | notify (msg : String)
  | upload (size : Nat)
deriving DecidableEq, Repr

namespace Simple

/-- The missing-Content-Length warning of src/Worker.js line 84. -/
def noSizeMsg : String :=
  "⚠️ **Failed:** Source server did not provide file size (Content-Length). Telegram requires this."

/-- The 50 MB Telegram Bot API limit of src/Worker.js line 89. -/
def SIZE_LIMIT : Nat := 52428800

/-- The size handling of `processLeech` (src/Worker.js lines 70-158): a
non-2xx source response throws into the catch-all; a missing
`Content-Length` sends the warning of line 84 and returns — the actual
object size is never consulted on this path; a size over 52428800 sends the
too-big message (whose MB interpolation is abstracted) and returns;
otherwise the multipart stream is sent to `sendDocument`, and a rejected
upload result surfaces its description through the catch-all of line 157. -/
def processLeech (sourceOk : Bool) (contentLength : Option Nat)
    (uploadOk : Bool) (uploadErrDesc : String) : List SEv × Bool :=
  if ¬ sourceOk then
    ([SEv.notify "❌ **Error:** Source URL returned error"], false)
  else
    match contentLength with
    | none => ([SEv.notify noSizeMsg], false)
    | some n =>
      if SIZE_LIMIT < n then ([SEv.notify "❌ **File too big!**"], false)
      else if uploadOk then ([SEv.upload n], true)
      else ([SEv.upload n,
             SEv.notify ("❌ **Error:** " ++ uploadErrDesc)], false)

end Simple

namespace Cobalt

/-- The catch-all message head of src/unnamed/part_003 line 239. -/
def upFailTag : String := "❌ **Upload Failed:** "

/-- The buffering-failure message of src/unnamed/part_003 line 156. -/
def bufFailMsg : String := "Source provided no size, and buffering failed."

/-- The size handling of `processLeech` (src/unnamed/part_003 lines
134-241): a missing `Content-Length` triggers the in-memory buffering
fallback of lines 150-158 — `blobSize` is the size learned by buffering the
whole body, or `none` when buffering threw, in which case the
size-unknown error is surfaced before anything is sent; the learned or
reported size is then checked against the 50 MB limit (line 161, MB
interpolation abstracted); otherwise the multipart stream is uploaded (the
informational download message of line 191 is elided), and a rejected result
surfaces its description. -/
def processLeech (sourceOk : Bool) (contentLength : Option Nat)
    (blobSize : Option Nat) (uploadOk : Bool) (uploadErrDesc : String) :
    List SEv × Bool :=
  if ¬ sourceOk then
    ([SEv.notify (upFailTag ++ "HTTP Source Error")], false)
  else
    match (match contentLength with
           | some n => some n
           | none => blobSize : Option Nat) with
    | none => ([SEv.notify (upFailTag ++ bufFailMsg)], false)
    | some n =>
      if 52428800 < n then
        ([SEv.notify (upFailTag ++ "Telegram Limit is 50MB.")], false)
      else if uploadOk then ([SEv.upload n], true)
      else ([SEv.upload n, SEv.notify (upFailTag ++ uploadErrDesc)], false)

end Cobalt

/-- Claim C9 counterexample: the cited `processLeech` of src/Worker.js
rejects every source that reports no `Content-Length` — lines 82-86 send
the size-required warning and return before anything is uploaded, without
ever consulting the actual object size — so a no-Content-Length source
whose actual size is tiny (e.g. 10 bytes, far below any buffering ceiling)
does not complete successfully, contradicting the claim. -/
theorem claim_C9_counterexample :
    Simple.processLeech true none true ""
      = ([SEv.notify Simple.noSizeMsg], false) ∧
    (Simple.processLeech true none true "").1.all
      (fun e => match e with | SEv.upload _ => false | _ => true) = true := by
  constructor
  · rfl
  · rfl

/-- Claim C9 as amended: in src/Worker.js any source without
`Content-Length` fails with the size-required warning before any bytes are
uploaded, whatever the actual size; in the buffering variant of
src/unnamed/part_003 the body is buffered in memory to learn the size — when
buffering fails the session fails with the size-unknown error before any
upload, and when buffering yields a size within the 50 MB limit the transfer
proceeds and completes. -/
theorem claim_C9_amended :
    (∀ (uploadOk : Bool) (e : String),
      Simple.processLeech true none uploadOk e
        = ([SEv.notify Simple.noSizeMsg], false)) ∧
    (∀ e : String,
      Cobalt.processLeech true none none true e
        = ([SEv.notify (Cobalt.upFailTag ++ Cobalt.bufFailMsg)], false)) ∧
    (∀ (s : Nat) (e : String), s ≤ 52428800 →
      Cobalt.processLeech true none (some s) true e = ([SEv.upload s], true)) := by
  refine ⟨?_, ?_, ?_⟩
  · intro uploadOk e
    rfl
  · intro e
    rfl
  · intro s e hs
    simp only [Cobalt.processLeech]
    rw [if_neg (by simp), if_neg (by omega)]
    simp

/-- Witness for the amended claim C9: a no-Content-Length source buffered to
1000 bytes completes successfully in the part_003 variant. -/
theorem claim_C9_amended_witness :
    Cobalt.processLeech true none (some 1000) true ""
      = ([SEv.upload 1000], true) :=
  claim_C9_amended.2.2 1000 "" (by norm_num)

/-! Webhook entry points (the `fetch` handlers of src/worker.js and
src/Worker.js). -/

/-- The parts of a Telegram update consulted by the handlers: the message
text, its caption, and whether it carries media
(`document || video || audio`). -/
structure Msg where
  text : Option String
  caption : Option String
  hasMedia : Bool
deriving DecidableEq, Repr

/-- A parsed webhook update (`update.message` may be absent). -/
structure Update where
  message : Option Msg
deriving DecidableEq, Repr

/-- What a `fetch` handler invocation produces: an HTTP `Response` with a
body and status, a plain JavaScript value that is not a `Response` (the
runtime then fails the request), or an uncaught exception. -/
inductive FetchRes where
  | resp (body : String) (status : Nat)
  | jsValue
  | thrown
deriving DecidableEq, Repr

/-- The HTTP status of a handler result, when it is a `Response`. -/
def statusOf : FetchRes → Option Nat
  | FetchRes.resp _ s => some s
  | _ => none

namespace Turbo

/-- The caption test `/^-?\d+$/.test(caption)` of src/worker.js line 27: an
optional leading minus followed by one or more digits (computed over the
character list so that it evaluates inside the kernel). -/
def isNumericCaption (s : String) : Bool :=
  match s.toList with
  | [] => false
  | c :: cs =>
    let t := if c = '-' then cs else c :: cs
    !t.isEmpty && t.all Char.isDigit

/-- `text.startsWith("/leech")` (src/worker.js line 34, src/Worker.js line
29), as a prefix test on the character list. -/
def leechCmd (t : String) : Bool :=
  "/leech".toList.isPrefixOf t.toList

/-- Splitting a character list on whitespace runs, dropping empty fragments:
the effect of splitting on one-or-more-whitespace for a string with no
leading whitespace. -/
def wsWords : List Char → List Char → List (List Char)
  | [], acc => if acc.isEmpty then [] else [acc.reverse]
  | ch :: cs, acc =>
    if ch.isWhitespace then
      if acc.isEmpty then wsWords cs [] else acc.reverse :: wsWords cs []
    else wsWords cs (ch :: acc)

/-- Whether a message caption passes the relay test (absent captions fail,
src/worker.js line 27). -/
def capNumeric : Option String → Bool
  | some cap => isNumericCaption cap
  | none => false

/-- `update.message.text.split(/\s+/)[1]` of src/worker.js line 36, as used
under the `startsWith("/leech")` guard (so the text has no leading
whitespace, the JavaScript split on whitespace runs agrees with `wsWords`);
`none` plays the role of the
JavaScript `undefined` that makes `!link` true. -/
def linkOf (text : String) : Option String :=
  (((wsWords text.toList []).drop 1).head?).map fun cs => String.mk cs

/-- The fall-through of the src/worker.js `fetch` handler (lines 51-57): the
resume route — whose `await request.json()` is outside any try/catch, so an
unparsable body throws — and the default `Active` response. -/
def fallThrough (method : String) (resumeParam : Option String)
    (body : Option Update) : FetchRes :=
  if method = "POST" ∧ resumeParam = some "true" then
    match body with
    | none => FetchRes.thrown
    | some _ => FetchRes.resp "Turbo Relay Active" 200
  else FetchRes.resp "Active" 200

/-- The `fetch` handler of src/worker.js (lines 16-58).  `resumeParam` is
`url.searchParams.get("resume")` (`none` when absent); `body` is the parsed
JSON update (`none` when parsing throws, landing in the catch of line 47);
`hasDB`/`hasURL` are the `env.LEECH_DB`/`env.WORKER_URL` bindings; `sendOk`
is whether the Telegram `sendMessage` call succeeds.  The `/leech` branches
at lines 37 and 39 return the value of `sendMessage(...)` — a parsed JSON
object, not a `Response` — and since the promise is returned without being
awaited inside the try block, a rejected send escapes the catch entirely. -/
def fetchHandler (method : String) (resumeParam : Option String)
    (body : Option Update) (hasDB hasURL : Bool) (sendOk : Bool) : FetchRes :=
  if method = "POST" ∧ resumeParam = none then
    match body with
    | none => FetchRes.resp "Error" 200
    | some u =>
      match u.message with
      | none => fallThrough method resumeParam body
      | some m =>
        if m.hasMedia && capNumeric m.caption then FetchRes.resp "Relayed" 200
        else
          match m.text with
          | none => fallThrough method resumeParam body
          | some t =>
            if leechCmd t then
              match linkOf t with
              | none => if sendOk then FetchRes.jsValue else FetchRes.thrown
              | some _ =>
                if ¬ hasDB ∨ ¬ hasURL then
                  if sendOk then FetchRes.jsValue else FetchRes.thrown
                else if sendOk then FetchRes.resp "OK" 200
                else FetchRes.resp "Error" 200
            else fallThrough method resumeParam body
  else fallThrough method resumeParam body

/-- The webhook-route inputs on which src/worker.js returns the
`sendMessage` result instead of a `Response`: a `/leech` command whose link
is missing, or one with a link but missing `LEECH_DB`/`WORKER_URL`
configuration (and no media-relay match before it). -/
def leechNonResponse (body : Option Update) (hasDB hasURL : Bool) : Bool :=
  match body with
  | none => false
  | some u =>
    match u.message with
    | none => false
    | some m =>
      if m.hasMedia && capNumeric m.caption then false
      else
        match m.text with
        | none => false
        | some t =>
          if leechCmd t then
            match linkOf t with
            | none => true
            | some _ => !hasDB || !hasURL
          else false

end Turbo

namespace Simple

/-- The `fetch` handler of src/Worker.js (lines 6-55): every POST is handled
inside a try/catch whose catch returns a 200 `Error` response; `/start` and
`/leech` (with or without a link) return 200 `OK` responses; anything else
falls through to the 200 default. -/
def fetchHandler (method : String) (body : Option Update) : FetchRes :=
  if method = "POST" then
    match body with
    | none => FetchRes.resp "Error" 200
    | some u =>
      match u.message with
      | none => FetchRes.resp "Leech Bot is Running. Please use Telegram." 200
      | some m =>
        match m.text with
        | none => FetchRes.resp "Leech Bot is Running. Please use Telegram." 200
        | some t =>
          if t = "/start" then FetchRes.resp "OK" 200
          else if Turbo.leechCmd t then FetchRes.resp "OK" 200
          else FetchRes.resp "Leech Bot is Running. Please use Telegram." 200
  else FetchRes.resp "Leech Bot is Running. Please use Telegram." 200

end Simple

/-- Claim C10 counterexample: the POST update `/leech` with no link — valid
JSON and a recognized command — makes src/worker.js return the `sendMessage`
JSON value instead of an HTTP response, so the webhook does not get a
status-200 response for this input. -/
theorem claim_C10_counterexample :
    Turbo.fetchHandler "POST" none
        (some ⟨some ⟨some "/leech", none, false⟩⟩) true true true
      = FetchRes.jsValue ∧
    statusOf (Turbo.fetchHandler "POST" none
      (some ⟨some ⟨some "/leech", none, false⟩⟩) true true true) = none := by
  constructor
  · decide
  · decide

/-- Claim C10 as amended: src/Worker.js answers every POST with a status-200
response, parse failures and unrecognized updates included; src/worker.js
does the same on its webhook route (resume parameter absent, Telegram
reachable) except exactly on the `/leech` inputs with a missing link or
missing configuration, where the handler returns the `sendMessage` JSON
value instead of a `Response`. -/
theorem claim_C10_amended :
    (∀ body : Option Update,
      statusOf (Simple.fetchHandler "POST" body) = some 200) ∧
    (∀ (body : Option Update) (hasDB hasURL : Bool),
      (Turbo.fetchHandler "POST" none body hasDB hasURL true = FetchRes.jsValue
        ↔ Turbo.leechNonResponse body hasDB hasURL = true) ∧
      (Turbo.leechNonResponse body hasDB hasURL = false →
        statusOf (Turbo.fetchHandler "POST" none body hasDB hasURL true)
          = some 200)) := by
  constructor
  · intro body
    rcases body with _ | ⟨_ | ⟨t, cap, med⟩⟩
    · rfl
    · rfl
    · rcases t with _ | t
      · rfl
      · by_cases hs : t = "/start"
        · simp [Simple.fetchHandler, hs, statusOf]
        · by_cases hl : Turbo.leechCmd t = true <;>
            simp [Simple.fetchHandler, hs, hl, statusOf]
  · intro body hasDB hasURL
    rcases body with _ | ⟨_ | ⟨t, cap, med⟩⟩
    · constructor
      · simp [Turbo.fetchHandler, Turbo.leechNonResponse]
      · intro _
        rfl
    · constructor
      · simp [Turbo.fetchHandler, Turbo.leechNonResponse, Turbo.fallThrough]
      · intro _
        rfl
    · by_cases hmed : (med && Turbo.capNumeric cap) = true
      · constructor
        · simp [Turbo.fetchHandler, Turbo.leechNonResponse, hmed]
        · intro _
          simp [Turbo.fetchHandler, hmed, statusOf]
      · rcases t with _ | t
        · constructor
          · simp [Turbo.fetchHandler, Turbo.leechNonResponse, hmed,
              Turbo.fallThrough]
          · intro _
            simp [Turbo.fetchHandler, hmed, Turbo.fallThrough, statusOf]
        · by_cases hle : Turbo.leechCmd t = true
          · rcases hlink : Turbo.linkOf t with _ | l
            · constructor
              · simp [Turbo.fetchHandler, Turbo.leechNonResponse, hmed, hle,
                  hlink]
              · intro hfalse
                exfalso
                simp [Turbo.leechNonResponse, hmed, hle, hlink] at hfalse
            · constructor
              · by_cases hdb : hasDB = true <;> by_cases hurl : hasURL = true <;>
                  simp [Turbo.fetchHandler, Turbo.leechNonResponse, hmed, hle,
                    hlink, hdb, hurl, statusOf]
              · intro hfalse
                by_cases hdb : hasDB = true <;> by_cases hurl : hasURL = true <;>
                  simp [Turbo.leechNonResponse, hmed, hle, hlink, hdb, hurl]
                    at hfalse ⊢ <;>
                  simp [Turbo.fetchHandler, hmed, hle, hlink, hdb, hurl, statusOf]
          · constructor
            · simp [Turbo.fetchHandler, Turbo.leechNonResponse, hmed, hle,
                Turbo.fallThrough]
            · intro _
              simp [Turbo.fetchHandler, hmed, hle, Turbo.fallThrough, statusOf]

/-- Witness for the amended claim C10: `/start` on src/Worker.js and a
well-formed `/leech` with a link and full configuration on src/worker.js
both receive 200 responses. -/
theorem claim_C10_amended_witness :
    statusOf (Simple.fetchHandler "POST"
      (some ⟨some ⟨some "/start", none, false⟩⟩)) = some 200 ∧
    statusOf (Turbo.fetchHandler "POST" none
      (some ⟨some ⟨some "/leech http://h/f.bin", none, false⟩⟩) true true true)
      = some 200 :=
  ⟨claim_C10_amended.1 (some ⟨some ⟨some "/start", none, false⟩⟩),
   (claim_C10_amended.2 (some ⟨some ⟨some "/leech http://h/f.bin", none, false⟩⟩)
     true true).2 (by decide)⟩

end LeechWork
